import Mathlib

/-!
# Verification of the Madrid weather-data cleaning pipeline

Shallow embedding of `limpieza_datos_clima.py`: a pandas `DataFrame` is
modelled as a list of column names together with rows of (column, value)
pairs kept in column order.  Cell values are modelled by the inductive
type `Value` (strings, Python ints, floats as rationals, the float `NaN`,
and pandas timestamps).  Fallible pandas operations (`pd.to_datetime`,
`astype(float)`, the `f"{x:02d}"` format) are modelled in `Option`, so a
stage that can raise returns `Option DataFrame` and the orchestrator
`proceso_completo_limpieza` propagates failure (fail-fast, no partial
output).
-/

namespace Clima

/-- A cell value of the working table.  `nan` models the float NaN that
pandas uses both for missing values (`None`) and for unmapped dictionary
keys in `Series.map`.  `date y m d` models a midnight `pd.Timestamp`
(as produced by `pd.to_datetime` on a date string); `dt y m d h` models
a timestamp with an hour component (minutes are always `:00` in this
pipeline). -/
inductive Value where
  | s (x : String)
  | i (n : Int)
  | q (x : ℚ)
  | nan
  | date (y m d : Nat)
  | dt (y m d h : Nat)
  deriving DecidableEq

/-- One row of a DataFrame: (column name, value) pairs in column order. -/
abbrev Row := List (String × Value)

/-- Row equality is decidable value equality (the notion pandas
`duplicated`/`drop_duplicates` applies, with NaN equal to NaN). -/
instance : BEq Row := instBEqOfDecidableEq

/-- A pandas DataFrame: the column names, and the rows (each row's keys
are kept in sync with `cols` by every operation below). -/
structure DataFrame where
  cols : List String
  rows : List Row
  deriving DecidableEq

/-- `df.copy()`: produces an independent object with the same value.  In
the value-level embedding a copy is the identity; its role is recorded by
the `*_obj` functions below, which separate the caller's argument object
from the freshly copied one. -/
def copyDF (df : DataFrame) : DataFrame := df

/-- Reading a cell: `row[c]`.  The pipeline only reads columns that are
present (per the pre-cleaning schema), so the default for an absent
column is irrelevant to every claim; we return `nan`. -/
def rowGet (r : Row) (c : String) : Value :=
  ((r.find? (fun p => p.1 = c)).map Prod.snd).getD Value.nan

/-- Column assignment on one row: `df[c] = ...` replaces the column in
place when it exists and appends it at the end otherwise (pandas
semantics). -/
def rowSet (r : Row) (c : String) (v : Value) : Row :=
  if r.any (fun p => p.1 = c) then
    r.map (fun p => if p.1 = c then (c, v) else p)
  else
    r ++ [(c, v)]

/-- Effect of a column assignment on the column list. -/
def colsSet (cols : List String) (c : String) : List String :=
  if c ∈ cols then cols else cols ++ [c]

/-- `df[c] = <series computed row-wise by f>` (total case). -/
def assignCol (df : DataFrame) (c : String) (f : Row → Value) : DataFrame :=
  ⟨colsSet df.cols c, df.rows.map (fun r => rowSet r c (f r))⟩

/-- Row-wise traversal in `Option`: the whole assignment fails as soon as
one cell fails, modelling a raised pandas exception. -/
def mapO {α β : Type} (f : α → Option β) : List α → Option (List β)
  | [] => some []
  | a :: l =>
    match f a, mapO f l with
    | some b, some bs => some (b :: bs)
    | _, _ => none

/-- `df[c] = <series computed row-wise by f>` where computing a cell can
raise (e.g. `pd.to_datetime`, `astype(float)`). -/
def assignColO (df : DataFrame) (c : String) (f : Row → Option Value) :
    Option DataFrame :=
  match mapO (fun r => (f r).map (fun v => rowSet r c v)) df.rows with
  | some rows' => some ⟨colsSet df.cols c, rows'⟩
  | none => none

/-- `Series.map(dict)` for a dict with string values: an unmapped key (or
a non-string cell) yields NaN. -/
def mapDictS (d : List (String × String)) : Value → Value
  | .s c => ((d.lookup c).map Value.s).getD Value.nan
  | _ => Value.nan

/-- `Series.map(dict)` for a dict whose values are already `Value`s
(used for the degrees dict, whose `"C"` entry is `np.nan`): an unmapped
key yields NaN. -/
def mapDict (d : List (String × Value)) : Value → Value
  | .s c => (d.lookup c).getD Value.nan
  | _ => Value.nan

/-! ## Translation dictionaries (source lines 32–41 and 66–76) -/

/-- Dict translating wind-direction abbreviations to full English names. -/
def wind_direction_completo : List (String × String) :=
  [("N", "north"), ("NE", "northeast"), ("E", "east"), ("SE", "southeast"),
   ("S", "south"), ("SO", "southwest"), ("O", "west"), ("NO", "northwest"),
   ("C", "calm")]

/-- Dict translating wind-direction abbreviations to degrees; calm ("C")
maps to `np.nan`. -/
def wind_direction_grados : List (String × Value) :=
  [("N", .q 0), ("NE", .q 45), ("E", .q 90), ("SE", .q 135), ("S", .q 180),
   ("SO", .q 225), ("O", .q 270), ("NO", .q 315), ("C", .nan)]

/-- Dict translating sky conditions from Spanish to English. -/
def sky_condition_ingles : List (String × String) :=
  [("Nubes altas", "high clouds"),
   ("Cubierto", "overcast"),
   ("Poco nuboso", "few clouds"),
   ("Nuboso", "cloudy"),
   ("Muy nuboso", "very cloudy"),
   ("Despejado", "clear"),
   ("Cubierto con lluvia escasa", "overcast with light rain"),
   ("Cubierto con lluvia", "overcast with rain"),
   ("Cubierto con tormenta y lluvia escasa",
    "overcast with thunderstorm and light rain")]

/-! ## Pipeline stages -/

/-- `traducir_direccion_viento` (source lines 18–50): copies the input
and adds the columns `wind_direction_completo` and
`wind_direction_grados` by dictionary lookup on `wind_direction`. -/
def traducir_direccion_viento (df : DataFrame) : DataFrame :=
  let df_result := copyDF df
  let df_result := assignCol df_result "wind_direction_completo"
    (fun r => mapDictS wind_direction_completo (rowGet r "wind_direction"))
  let df_result := assignCol df_result "wind_direction_grados"
    (fun r => mapDict wind_direction_grados (rowGet r "wind_direction"))
  df_result

/-- `traducir_condicion_cielo` (source lines 53–84): copies the input and
adds `sky_condition_ingles` by dictionary lookup on `sky_condition`. -/
def traducir_condicion_cielo (df : DataFrame) : DataFrame :=
  let df_result := copyDF df
  assignCol df_result "sky_condition_ingles"
    (fun r => mapDictS sky_condition_ingles (rowGet r "sky_condition"))

/-- `eliminar_columnas_innecesarias` (source lines 87–104): copies the
input and drops the listed columns (`df.drop(..., axis=1, inplace=True)`
on the copy).  The orchestrator only calls it with columns that are
present. -/
def eliminar_columnas_innecesarias (df : DataFrame)
    (columnas_a_eliminar : List String) : DataFrame :=
  let df_result := copyDF df
  ⟨df_result.cols.filter (fun c => !(columnas_a_eliminar.contains c)),
   df_result.rows.map (fun r =>
     r.filter (fun p => !(columnas_a_eliminar.contains p.1)))⟩

/-! ### Primitive conversions used by the type normalizer

String primitives are modelled at the character-list level
(`String.data`), which matches the library functions (`str.split`,
`int(...)`, `str.lower()`) on the inputs this pipeline handles. -/

/-- The numeric value of a decimal digit character. -/
def digit? (c : Char) : Option Nat :=
  if 48 ≤ c.toNat ∧ c.toNat ≤ 57 then some (c.toNat - 48) else none

/-- Splitting a character list on a separator (the behaviour of
`str.split(sep)` / `String.splitOn` for a one-character separator). -/
def splitChar (sep : Char) : List Char → List (List Char)
  | [] => [[]]
  | c :: cs =>
    let r := splitChar sep cs
    if c = sep then [] :: r
    else
      match r with
      | [] => [[c]]
      | g :: gs => (c :: g) :: gs

/-- Value of a nonempty digit string, most significant digit first. -/
def digitsValAux : List Char → Nat → Option Nat
  | [], acc => some acc
  | c :: cs, acc =>
    match digit? c with
    | some d => digitsValAux cs (acc * 10 + d)
    | none => none

/-- Parsing an unsigned decimal numeral; empty or non-digit input is a
parse failure. -/
def digitsVal : List Char → Option Nat
  | [] => none
  | l => digitsValAux l 0

/-- ASCII lower-casing of one character (`str.lower()` on the
identifiers used as column names). -/
def lowerChar (c : Char) : Char :=
  if 65 ≤ c.toNat ∧ c.toNat ≤ 90 then Char.ofNat (c.toNat + 32) else c

/-- `str.lower()`. -/
def strLower (s : String) : String := ⟨s.data.map lowerChar⟩

/-- Zero-padding to two digits. -/
def pad2 (n : Nat) : String :=
  if n < 10 then "0" ++ toString n else toString n

/-- Zero-padding a year to four digits (pandas timestamp rendering). -/
def pad4 (n : Nat) : String :=
  if n < 10 then "000" ++ toString n
  else if n < 100 then "00" ++ toString n
  else if n < 1000 then "0" ++ toString n
  else toString n

/-- Python `f"{x:02d}"` on an int. -/
def intPad2 (n : Int) : String :=
  if 0 ≤ n ∧ n < 10 then "0" ++ toString n else toString n

/-- `pd.to_datetime(s, dayfirst=False)` on one date string, for the two
source formats (ISO `yyyy-mm-dd` and `a/b/yyyy`).  With
`dayfirst=False`, a slashed date is read month-first; when the first
component cannot be a month (> 12) the parser falls back to day-first
(dateutil swap behaviour).  Returns (year, month, day). -/
def parseDateStr (s : String) : Option (Nat × Nat × Nat) :=
  match splitChar '-' s.data with
  | [ys, ms, ds] =>
    match digitsVal ys, digitsVal ms, digitsVal ds with
    | some y, some m, some d =>
      if 1 ≤ m ∧ m ≤ 12 ∧ 1 ≤ d ∧ d ≤ 31 then some (y, m, d) else none
    | _, _, _ => none
  | _ =>
    match splitChar '/' s.data with
    | [as, bs, ys] =>
      match digitsVal as, digitsVal bs, digitsVal ys with
      | some a, some b, some y =>
        if 1 ≤ a ∧ a ≤ 12 ∧ 1 ≤ b ∧ b ≤ 31 then some (y, a, b)
        else if 1 ≤ b ∧ b ≤ 12 ∧ 1 ≤ a ∧ a ≤ 31 then some (y, b, a)
        else none
      | _, _, _ => none
    | _ => none

/-- `pd.to_datetime(cell, dayfirst=False)` on one cell of the `date`
column: a date string parses or raises; anything else raises. -/
def toDatetimeCell (v : Value) : Option Value :=
  match v with
  | .s str => (parseDateStr str).map (fun t => Value.date t.1 t.2.1 t.2.2)
  | _ => none

/-- The rational `(-1)^neg * (a + b / 10^k)`, built directly in reduced
`num`/`den` form (the form a binary float holds after parsing a decimal
literal, up to the decimal/binary abstraction used throughout). -/
def mkDecRat (neg : Bool) (a b k : Nat) : ℚ :=
  let N : Nat := a * 10 ^ k + b
  let D : Nat := 10 ^ k
  let g : Nat := N.gcd D
  if hN : N = 0 then (0 : ℚ)
  else
    have hg : 0 < g := Nat.gcd_pos_of_pos_left _ (Nat.pos_of_ne_zero hN)
    have hD : 0 < D := pow_pos (by norm_num) k
    have hden : D / g ≠ 0 :=
      Nat.pos_iff_ne_zero.mp
        (Nat.div_pos (Nat.le_of_dvd hD (Nat.gcd_dvd_right N D)) hg)
    have hcop : (N / g).Coprime (D / g) := Nat.coprime_div_gcd_div_gcd hg
    if neg then ⟨-(N / g : Nat), D / g, hden, by simpa using hcop⟩
    else ⟨(N / g : Nat), D / g, hden, by simpa using hcop⟩

/-- Python `float(...)` on the decimal-literal grammar the data uses
(optional sign, digits, optional fraction). -/
def parseFloatStr (s : String) : Option ℚ :=
  let signed : Bool × List Char :=
    match s.data with
    | '-' :: rest => (true, rest)
    | l => (false, l)
  match splitChar '.' signed.2 with
  | [w] => (digitsVal w).map (fun n => mkDecRat signed.1 n 0 0)
  | [w, f] =>
    match digitsVal w, digitsVal f with
    | some a, some b => some (mkDecRat signed.1 a b f.length)
    | _, _ => none
  | _ => none

/-- `Series.astype(float)` on one cell: floats and ints pass through,
`None`/NaN stays NaN, numeric strings parse, anything else raises. -/
def astypeFloat (v : Value) : Option Value :=
  match v with
  | .q x => some (.q x)
  | .i n => some (.q (n : ℚ))
  | .nan => some .nan
  | .s str => (parseFloatStr str).map Value.q
  | _ => none

/-- The `lambda x: f"{x:02d}:00"` applied to the `hour` column: defined
on Python ints only (anything else raises a format error). -/
def formatHourCell (v : Value) : Option Value :=
  match v with
  | .i n => some (.s (intPad2 n ++ ":00"))
  | _ => none

/-- `convertir_tipos_datos` (source lines 107–140): copies the input,
parses `date` (with `dayfirst=False`), reformats `hour` to `"HH:00"`,
coerces the three measurements to float, and coerces
`wind_direction_grados` if that column exists.  Any cell-level parse
failure aborts the stage (a raised pandas exception). -/
def convertir_tipos_datos (df : DataFrame) : Option DataFrame := do
  let df_result := copyDF df
  let df_result ← assignColO df_result "date"
    (fun r => toDatetimeCell (rowGet r "date"))
  let df_result ← assignColO df_result "hour"
    (fun r => formatHourCell (rowGet r "hour"))
  let df_result ← assignColO df_result "temperature"
    (fun r => astypeFloat (rowGet r "temperature"))
  let df_result ← assignColO df_result "humidity"
    (fun r => astypeFloat (rowGet r "humidity"))
  let df_result ← assignColO df_result "wind_speed"
    (fun r => astypeFloat (rowGet r "wind_speed"))
  if df_result.cols.contains "wind_direction_grados" then
    assignColO df_result "wind_direction_grados"
      (fun r => astypeFloat (rowGet r "wind_direction_grados"))
  else
    some df_result

/-- `Series.astype(str)` on one cell, for the values that reach
`unificar_fecha_hora`: a midnight timestamp column renders date-only
(pandas behaviour, confirmed by the repository's own unit test), strings
pass through, ints render decimally. -/
def strOfValue : Value → String
  | .s x => x
  | .i n => toString n
  | .q x => toString x
  | .nan => "nan"
  | .date y m d => pad4 y ++ "-" ++ pad2 m ++ "-" ++ pad2 d
  | .dt y m d h =>
    pad4 y ++ "-" ++ pad2 m ++ "-" ++ pad2 d ++ " " ++ pad2 h ++ ":00:00"

/-- `pd.to_datetime` on the `"<date> <HH:00>"` strings built by the
temporal unifier: an ISO (or slashed) date, a space, and an `"HH:00"`
time with a valid hour. -/
def parseDateTimeStr (s : String) : Option (Nat × Nat × Nat × Nat) :=
  match splitChar ' ' s.data with
  | [ds, ts] =>
    match parseDateStr ⟨ds⟩, splitChar ':' ts with
    | some (y, m, d), [hs, ms] =>
      match digitsVal hs with
      | some h =>
        if h ≤ 23 ∧ ms = "00".data then some (y, m, d, h) else none
      | none => none
    | _, _ => none
  | _ => none

/-- `unificar_fecha_hora` (source lines 143–161): copies the input and
adds `datetime = pd.to_datetime(date.astype(str) + " " + hour.astype(str))`. -/
def unificar_fecha_hora (df : DataFrame) : Option DataFrame :=
  let df_result := copyDF df
  assignColO df_result "datetime"
    (fun r =>
      (parseDateTimeStr
          (strOfValue (rowGet r "date") ++ " " ++ strOfValue (rowGet r "hour"))).map
        (fun t => Value.dt t.1 t.2.1 t.2.2.1 t.2.2.2))

/-- Applying the rename dict to one column name: unknown names are left
unchanged (pandas `rename` is tolerant by default). -/
def renameKey (renombres : List (String × String)) (c : String) : String :=
  (renombres.lookup c).getD c

/-- `normalizar_nombres_columnas` (source lines 164–185): copies the
input, lower-cases all column names, then applies the supplied renames. -/
def normalizar_nombres_columnas (df : DataFrame)
    (renombres : List (String × String)) : DataFrame :=
  let df_result := copyDF df
  let lowered : DataFrame :=
    ⟨df_result.cols.map strLower,
     df_result.rows.map (fun r => r.map (fun p => (strLower p.1, p.2)))⟩
  ⟨lowered.cols.map (renameKey renombres),
   lowered.rows.map (fun r => r.map (fun p => (renameKey renombres p.1, p.2)))⟩

/-- `pd.isna` on one cell. -/
def isNa : Value → Bool
  | .nan => true
  | _ => false

/-- `marcar_estado_viento` (source lines 188–209): copies the input and
adds `wind_status` = "calm" if `wind_direction_degrees` is NaN, else
"with wind". -/
def marcar_estado_viento (df : DataFrame) : DataFrame :=
  let df_result := copyDF df
  assignCol df_result "wind_status"
    (fun r =>
      Value.s (if isNa (rowGet r "wind_direction_degrees") then "calm"
               else "with wind"))

/-- The strict numeric order on rationals, computed on the reduced
`num`/`den` representation (`a < b` iff `a.num * b.den < b.num *
a.den`); this is the order pandas float comparison implements. -/
def ratLtB (a b : ℚ) : Bool :=
  decide (a.num * (b.den : Int) < b.num * (a.den : Int))

/-- `series < c` on one cell (pandas numeric comparison): NaN compares
false; numeric cells compare numerically. -/
def valueLt (v : Value) (c : ℚ) : Bool :=
  match v with
  | .q x => ratLtB x c
  | .i n => ratLtB (n : ℚ) c
  | _ => false

/-- `series > c` on one cell: NaN compares false. -/
def valueGt (v : Value) (c : ℚ) : Bool :=
  match v with
  | .q x => ratLtB c x
  | .i n => ratLtB c (n : ℚ)
  | _ => false

/-- `detectar_outliers` (source lines 212–232): the subset of rows whose
temperature is below -10 or above 50, humidity below 0 or above 100, or
wind speed below 0. -/
def detectar_outliers (df : DataFrame) : DataFrame :=
  ⟨df.cols,
   df.rows.filter (fun r =>
     valueLt (rowGet r "temperature") (-10) ||
     valueGt (rowGet r "temperature") 50 ||
     valueLt (rowGet r "humidity") 0 ||
     valueGt (rowGet r "humidity") 100 ||
     valueLt (rowGet r "wind_speed") 0)⟩

/-- `df.duplicated()` with an explicit already-seen accumulator: a row is
marked `true` exactly when an identical row occurred earlier. -/
def duplicatedFrom (seen : List Row) : List Row → List Bool
  | [] => []
  | r :: rs => (decide (r ∈ seen)) :: duplicatedFrom (r :: seen) rs

/-- `df.drop_duplicates()` with an explicit already-seen accumulator:
keeps the first occurrence of each row. -/
def dropDuplicatesFrom (seen : List Row) : List Row → List Row
  | [] => []
  | r :: rs =>
    if r ∈ seen then dropDuplicatesFrom (r :: seen) rs
    else r :: dropDuplicatesFrom (r :: seen) rs

/-- `verificar_duplicados` (source lines 235–252): copies the input and
returns (the table with exact full-row duplicates removed keeping the
first occurrence, the number of removed rows). -/
def verificar_duplicados (df : DataFrame) : DataFrame × Nat :=
  let df_result := copyDF df
  let duplicados := duplicatedFrom [] df_result.rows
  (⟨df_result.cols, dropDuplicatesFrom [] df_result.rows⟩,
   duplicados.count true)

/-- `df.pop("datetime")` followed by `df.insert(0, "datetime", ...)`
(source lines 293–294): moves the column to position 0. -/
def popInsertFirst (df : DataFrame) (c : String) : DataFrame :=
  ⟨c :: df.cols.filter (fun x => x != c),
   df.rows.map (fun r => (c, rowGet r c) :: r.filter (fun p => p.1 != c))⟩

/-- The rename dict of the orchestrator (source lines 297–301). -/
def proceso_renombres : List (String × String) :=
  [("sky_condition_ingles", "sky_condition"),
   ("wind_direction_grados", "wind_direction_degrees"),
   ("wind_direction_completo", "wind_direction")]

/-- `proceso_completo_limpieza` (source lines 255–310): the fixed-order
pipeline.  A raised stage error propagates (the result is `none`). -/
def proceso_completo_limpieza (df : DataFrame) : Option DataFrame := do
  let df := traducir_direccion_viento df
  let df := traducir_condicion_cielo df
  let df := eliminar_columnas_innecesarias df
    ["wind_direction", "sky_condition", "timestamp"]
  let df ← convertir_tipos_datos df
  let df ← unificar_fecha_hora df
  let df := eliminar_columnas_innecesarias df ["date", "hour"]
  let df := popInsertFirst df "datetime"
  let df := normalizar_nombres_columnas df proceso_renombres
  let df := marcar_estado_viento df
  let resultado := verificar_duplicados df
  return resultado.1

/-! ## Object-level view of the stages

To settle whether a stage mutates its caller's table, the value-level
embedding is not enough: it has no notion of object identity.  Here the
Python object store is modelled explicitly.  A `Heap` is the store of
live DataFrame objects and a `Ref` is a reference (index) into it;
`df.copy()` allocates a fresh object, and every in-place statement of
the source — `df_result[c] = ...`, `drop(..., inplace=True)`,
`df.columns = ...`, `rename(..., inplace=True)`, `pop`/`insert` —
becomes a real `Heap.set` through the reference the source statement
writes through.  Each `*_obj` function is the statement-by-statement
transcription of the stage over the heap, taking the argument reference
and returning the updated heap and the returned reference.  Nothing is
assumed about the argument object: that it survives unchanged has to be
proved from allocation freshness, and would be false for a body that
wrote through the argument reference. -/

/-- A reference to a DataFrame object. -/
abbrev Ref := Nat

/-- The store of live DataFrame objects. -/
structure Heap where
  store : List DataFrame

/-- Dereferencing.  Reads of an unallocated reference do not occur in
the transcriptions below; they default to the empty frame. -/
def Heap.get (h : Heap) (r : Ref) : DataFrame :=
  h.store.getD r ⟨[], []⟩

/-- In-place mutation of the object behind a reference. -/
def Heap.set (h : Heap) (r : Ref) (d : DataFrame) : Heap :=
  ⟨h.store.set r d⟩

/-- Allocation of a fresh object (`df.copy()`, or a pandas call that
builds a new frame): returns the grown heap and the fresh reference. -/
def Heap.alloc (h : Heap) (d : DataFrame) : Heap × Ref :=
  (⟨h.store ++ [d]⟩, h.store.length)

/-- Number of live objects. -/
def Heap.size (h : Heap) : Nat := h.store.length

/-- `traducir_direccion_viento` over the heap (source lines 43–50):
`df_result = df.copy()` allocates; the two column assignments write
through `df_result`.  (The map's source column is read from the copy,
whose `wind_direction` column equals the original's, as in the
value-level transcription.) -/
def traducir_direccion_viento_obj (h : Heap) (df : Ref) : Heap × Ref :=
  let a := h.alloc (h.get df)
  let h1 := a.1
  let df_result := a.2
  let h2 := h1.set df_result
    (assignCol (h1.get df_result) "wind_direction_completo"
      (fun r => mapDictS wind_direction_completo (rowGet r "wind_direction")))
  let h3 := h2.set df_result
    (assignCol (h2.get df_result) "wind_direction_grados"
      (fun r => mapDict wind_direction_grados (rowGet r "wind_direction")))
  (h3, df_result)

/-- `traducir_condicion_cielo` over the heap (source lines 78–84). -/
def traducir_condicion_cielo_obj (h : Heap) (df : Ref) : Heap × Ref :=
  let a := h.alloc (h.get df)
  let h2 := a.1.set a.2
    (assignCol (a.1.get a.2) "sky_condition_ingles"
      (fun r => mapDictS sky_condition_ingles (rowGet r "sky_condition")))
  (h2, a.2)

/-- `eliminar_columnas_innecesarias` over the heap (source lines
98–104): copy, then `df_result.drop(columnas, axis=1, inplace=True)` as
one in-place write. -/
def eliminar_columnas_innecesarias_obj (h : Heap) (df : Ref)
    (columnas_a_eliminar : List String) : Heap × Ref :=
  let a := h.alloc (h.get df)
  let h2 := a.1.set a.2
    ⟨(a.1.get a.2).cols.filter (fun c => !(columnas_a_eliminar.contains c)),
     (a.1.get a.2).rows.map (fun r =>
       r.filter (fun p => !(columnas_a_eliminar.contains p.1)))⟩
  (h2, a.2)

/-- `convertir_tipos_datos` over the heap (source lines 122–140): copy,
then six in-place column assignments reading `df_result`; a raised
conversion error aborts with the writes done so far confined to the
copy. -/
def convertir_tipos_datos_obj (h : Heap) (df : Ref) : Heap × Option Ref :=
  let a := h.alloc (h.get df)
  let h0 := a.1
  let df_result := a.2
  match assignColO (h0.get df_result) "date"
      (fun r => toDatetimeCell (rowGet r "date")) with
  | none => (h0, none)
  | some v1 =>
  let h1 := h0.set df_result v1
  match assignColO (h1.get df_result) "hour"
      (fun r => formatHourCell (rowGet r "hour")) with
  | none => (h1, none)
  | some v2 =>
  let h2 := h1.set df_result v2
  match assignColO (h2.get df_result) "temperature"
      (fun r => astypeFloat (rowGet r "temperature")) with
  | none => (h2, none)
  | some v3 =>
  let h3 := h2.set df_result v3
  match assignColO (h3.get df_result) "humidity"
      (fun r => astypeFloat (rowGet r "humidity")) with
  | none => (h3, none)
  | some v4 =>
  let h4 := h3.set df_result v4
  match assignColO (h4.get df_result) "wind_speed"
      (fun r => astypeFloat (rowGet r "wind_speed")) with
  | none => (h4, none)
  | some v5 =>
  let h5 := h4.set df_result v5
  if (h5.get df_result).cols.contains "wind_direction_grados" then
    match assignColO (h5.get df_result) "wind_direction_grados"
        (fun r => astypeFloat (rowGet r "wind_direction_grados")) with
    | none => (h5, none)
    | some v6 => (h5.set df_result v6, some df_result)
  else (h5, some df_result)

/-- `unificar_fecha_hora` over the heap (source lines 153–161). -/
def unificar_fecha_hora_obj (h : Heap) (df : Ref) : Heap × Option Ref :=
  let a := h.alloc (h.get df)
  match assignColO (a.1.get a.2) "datetime"
      (fun r =>
        (parseDateTimeStr
            (strOfValue (rowGet r "date") ++ " " ++
              strOfValue (rowGet r "hour"))).map
          (fun t => Value.dt t.1 t.2.1 t.2.2.1 t.2.2.2)) with
  | none => (a.1, none)
  | some v => (a.1.set a.2 v, some a.2)

/-- `normalizar_nombres_columnas` over the heap (source lines 175–185):
copy, in-place `df_result.columns = ...lower()`, in-place
`df_result.rename(columns=renombres, inplace=True)`. -/
def normalizar_nombres_columnas_obj (h : Heap) (df : Ref)
    (renombres : List (String × String)) : Heap × Ref :=
  let a := h.alloc (h.get df)
  let h1 := a.1.set a.2
    ⟨(a.1.get a.2).cols.map strLower,
     (a.1.get a.2).rows.map (fun r =>
       r.map (fun p => (strLower p.1, p.2)))⟩
  let h2 := h1.set a.2
    ⟨(h1.get a.2).cols.map (renameKey renombres),
     (h1.get a.2).rows.map (fun r =>
       r.map (fun p => (renameKey renombres p.1, p.2)))⟩
  (h2, a.2)

/-- `marcar_estado_viento` over the heap (source lines 201–209). -/
def marcar_estado_viento_obj (h : Heap) (df : Ref) : Heap × Ref :=
  let a := h.alloc (h.get df)
  let h2 := a.1.set a.2
    (assignCol (a.1.get a.2) "wind_status"
      (fun r =>
        Value.s (if isNa (rowGet r "wind_direction_degrees") then "calm"
                 else "with wind")))
  (h2, a.2)

/-- `detectar_outliers` over the heap (source lines 227–232): boolean
indexing builds a new frame; the body performs no write at all. -/
def detectar_outliers_obj (h : Heap) (df : Ref) : Heap × Ref :=
  h.alloc (detectar_outliers (h.get df))

/-- `verificar_duplicados` over the heap (source lines 245–252): copy;
`duplicated()` is a pure read; `drop_duplicates()` (not in place)
builds a second new frame, which is returned with the count. -/
def verificar_duplicados_obj (h : Heap) (df : Ref) : Heap × (Ref × Nat) :=
  let a := h.alloc (h.get df)
  let duplicados := duplicatedFrom [] ((a.1.get a.2).rows)
  let b := a.1.alloc
    ⟨(a.1.get a.2).cols, dropDuplicatesFrom [] ((a.1.get a.2).rows)⟩
  (b.1, (b.2, duplicados.count true))

/-- `proceso_completo_limpieza` over the heap (source lines 274–310):
the orchestrator rebinds its local name `df` to each stage's returned
reference; its step 7 (`pop` and `insert`, lines 293–294) is the one
in-place write the orchestrator itself performs, through the reference
returned by step 6. -/
def proceso_completo_limpieza_obj (h : Heap) (df : Ref) :
    Heap × Option Ref :=
  let s1 := traducir_direccion_viento_obj h df
  let s2 := traducir_condicion_cielo_obj s1.1 s1.2
  let s3 := eliminar_columnas_innecesarias_obj s2.1 s2.2
    ["wind_direction", "sky_condition", "timestamp"]
  match convertir_tipos_datos_obj s3.1 s3.2 with
  | (h4, none) => (h4, none)
  | (h4, some df4) =>
  match unificar_fecha_hora_obj h4 df4 with
  | (h5, none) => (h5, none)
  | (h5, some df5) =>
  let s6 := eliminar_columnas_innecesarias_obj h5 df5 ["date", "hour"]
  let h7 := s6.1.set s6.2 (popInsertFirst (s6.1.get s6.2) "datetime")
  let s8 := normalizar_nombres_columnas_obj h7 s6.2 proceso_renombres
  let s9 := marcar_estado_viento_obj s8.1 s8.2
  let s10 := verificar_duplicados_obj s9.1 s9.2
  (s10.1, some s10.2.1)

/-! ## Schemas and named code sets -/

/-- The pre-cleaning schema delivered by the collector. -/
def rawSchema : List String :=
  ["date", "hour", "temperature", "humidity", "wind_speed",
   "wind_direction", "sky_condition", "timestamp"]

/-- The canonical output schema of the cleaning pipeline. -/
def canonSchema : List String :=
  ["datetime", "temperature", "humidity", "wind_speed", "wind_direction",
   "wind_direction_degrees", "sky_condition", "wind_status"]

/-- The eight directional raw wind codes. -/
def windCodes8 : List String := ["N", "NE", "E", "SE", "S", "SO", "O", "NO"]

/-- All nine raw wind codes (directions plus calm). -/
def windCodes9 : List String := windCodes8 ++ ["C"]

/-! ## Concrete input tables used as witnesses and counterexamples -/

/-- The spec's end-to-end example row (collection date 18 February in the
collector's dd/mm/yyyy format). -/
def exampleRow : Row :=
  [("date", .s "18/02/2025"), ("hour", .i 8), ("temperature", .s "22.5"),
   ("humidity", .s "65"), ("wind_speed", .s "10"),
   ("wind_direction", .s "N"), ("sky_condition", .s "Despejado"),
   ("timestamp", .s "2025-02-18 08:15:00")]

/-- Single-row table holding the spec's end-to-end example. -/
def exampleTable : DataFrame := ⟨rawSchema, [exampleRow]⟩

/-- A one-object heap holding the example table, for the object-level
witnesses. -/
def exampleHeap : Heap := ⟨[exampleTable]⟩

/-- The same example with forecast date 5 February 2025 in the
collector's dd/mm/yyyy format ("05/02/2025"): the day component is ≤ 12,
so the month-first reading is possible. -/
def ambiguousDateTable : DataFrame :=
  ⟨rawSchema,
   [[("date", .s "05/02/2025"), ("hour", .i 8), ("temperature", .s "22.5"),
     ("humidity", .s "65"), ("wind_speed", .s "10"),
     ("wind_direction", .s "N"), ("sky_condition", .s "Despejado"),
     ("timestamp", .s "2025-02-18 08:15:00")]]⟩

/-- Single-row table whose wind code "X" is outside the raw code set. -/
def unknownCodeTable : DataFrame :=
  ⟨rawSchema,
   [[("date", .s "2025-02-18"), ("hour", .i 8), ("temperature", .s "22.5"),
     ("humidity", .s "65"), ("wind_speed", .s "10"),
     ("wind_direction", .s "X"), ("sky_condition", .s "Despejado"),
     ("timestamp", .s "2025-02-18 08:15:00")]]⟩

/-- Two-row table: one calm row ("C") and one northerly row ("N"). -/
def calmAndWindTable : DataFrame :=
  ⟨rawSchema,
   [[("date", .s "2025-02-18"), ("hour", .i 8), ("temperature", .s "22.5"),
     ("humidity", .s "65"), ("wind_speed", .s "0"),
     ("wind_direction", .s "C"), ("sky_condition", .s "Despejado"),
     ("timestamp", .s "2025-02-18 08:15:00")],
    [("date", .s "2025-02-18"), ("hour", .i 9), ("temperature", .s "23.0"),
     ("humidity", .s "68"), ("wind_speed", .s "12"),
     ("wind_direction", .s "N"), ("sky_condition", .s "Nuboso"),
     ("timestamp", .s "2025-02-18 08:15:00")]]⟩

/-- The clean table the spec's example row should produce. -/
def exampleOutput : DataFrame :=
  ⟨canonSchema,
   [[("datetime", .dt 2025 2 18 8), ("temperature", .q 22.5),
     ("humidity", .q 65), ("wind_speed", .q 10),
     ("wind_direction", .s "north"), ("wind_direction_degrees", .q 0),
     ("sky_condition", .s "clear"), ("wind_status", .s "with wind")]]⟩

/-- What the code actually produces for the date "05/02/2025": the
datetime component is 2 May 2025 (month-first reading), not 5 February. -/
def ambiguousDateOutput : DataFrame :=
  ⟨canonSchema,
   [[("datetime", .dt 2025 5 2 8), ("temperature", .q 22.5),
     ("humidity", .q 65), ("wind_speed", .q 10),
     ("wind_direction", .s "north"), ("wind_direction_degrees", .q 0),
     ("sky_condition", .s "clear"), ("wind_status", .s "with wind")]]⟩

/-- The clean table the unknown-code row actually produces: NaN wind
name, NaN degrees, and wind_status "calm", although the raw code was
"X", not "C". -/
def unknownCodeOutput : DataFrame :=
  ⟨canonSchema,
   [[("datetime", .dt 2025 2 18 8), ("temperature", .q 22.5),
     ("humidity", .q 65), ("wind_speed", .q 10),
     ("wind_direction", .nan), ("wind_direction_degrees", .nan),
     ("sky_condition", .s "clear"), ("wind_status", .s "calm")]]⟩

/-- Clean row produced from the calm ("C") input row of
`calmAndWindTable`. -/
def calmOutputRow : Row :=
  [("datetime", .dt 2025 2 18 8), ("temperature", .q 22.5),
   ("humidity", .q 65), ("wind_speed", .q 0),
   ("wind_direction", .s "calm"), ("wind_direction_degrees", .nan),
   ("sky_condition", .s "clear"), ("wind_status", .s "calm")]

/-- Clean row produced from the northerly ("N") input row of
`calmAndWindTable`. -/
def windyOutputRow : Row :=
  [("datetime", .dt 2025 2 18 9), ("temperature", .q 23),
   ("humidity", .q 68), ("wind_speed", .q 12),
   ("wind_direction", .s "north"), ("wind_direction_degrees", .q 0),
   ("sky_condition", .s "cloudy"), ("wind_status", .s "with wind")]

/-- The clean table produced from `calmAndWindTable`. -/
def calmAndWindOutput : DataFrame :=
  ⟨canonSchema, [calmOutputRow, windyOutputRow]⟩

/-- Rows used by the deduplication witnesses. -/
def rowA : Row := [("temperature", Value.q 20), ("humidity", Value.q 50)]

def rowB : Row := [("temperature", Value.q 21), ("humidity", Value.q 55)]

/-- A table in which `rowA` occurs three times and `rowB` once. -/
def dupTable : DataFrame :=
  ⟨["temperature", "humidity"], [rowA, rowB, rowA, rowA]⟩

/-- Rows probing the outlier detector. -/
def outlierRow : Row :=
  [("temperature", Value.q (-15)), ("humidity", Value.q 50),
   ("wind_speed", Value.q 8)]

def normalRow : Row :=
  [("temperature", Value.q 20), ("humidity", Value.q 50),
   ("wind_speed", Value.q 8)]

def missingRow : Row :=
  [("temperature", Value.nan), ("humidity", Value.nan),
   ("wind_speed", Value.nan)]

/-- A table mixing an outlier row, a normal row and an all-missing row. -/
def outlierTable : DataFrame :=
  ⟨["temperature", "humidity", "wind_speed"],
   [outlierRow, normalRow, missingRow]⟩

/-! ## Basic lemmas about the numeric model -/

theorem cast_div_gcd (N D : ℕ) (hN : N ≠ 0) (hD : 0 < D) :
    ((N / N.gcd D : ℕ) : ℚ) / ((D / N.gcd D : ℕ) : ℚ) = (N : ℚ) / (D : ℚ) := by
  have hg : 0 < N.gcd D := Nat.gcd_pos_of_pos_left _ (Nat.pos_of_ne_zero hN)
  rw [Nat.cast_div (Nat.gcd_dvd_left N D) (by exact_mod_cast hg.ne'),
      Nat.cast_div (Nat.gcd_dvd_right N D) (by exact_mod_cast hg.ne')]
  have hgq : ((N.gcd D : ℕ) : ℚ) ≠ 0 := by exact_mod_cast hg.ne'
  have hDq : ((D : ℕ) : ℚ) ≠ 0 := by exact_mod_cast hD.ne'
  field_simp

/-- `mkDecRat` builds the rational it claims to. -/
theorem mkDecRat_eq (neg : Bool) (a b k : Nat) :
    mkDecRat neg a b k =
      (if neg then (-1 : ℚ) else 1) * ((a : ℚ) + (b : ℚ) / 10 ^ k) := by
  unfold mkDecRat
  have hD : (0 : Nat) < 10 ^ k := pow_pos (by norm_num) k
  have hval : ((a * 10 ^ k + b : ℕ) : ℚ) / ((10 ^ k : ℕ) : ℚ)
      = (a : ℚ) + (b : ℚ) / 10 ^ k := by
    have hDq : ((10 ^ k : ℕ) : ℚ) ≠ 0 := by exact_mod_cast hD.ne'
    push_cast
    field_simp
  by_cases hN : a * 10 ^ k + b = 0
  · simp only [dif_pos hN]
    obtain ⟨h1, hb⟩ := Nat.add_eq_zero.mp hN
    have ha : a = 0 := by
      rcases Nat.mul_eq_zero.mp h1 with h | h
      · exact h
      · omega
    subst ha; subst hb
    simp
  · simp only [dif_neg hN]
    cases neg with
    | false =>
      simp only [Bool.false_eq_true, if_false, one_mul]
      rw [Rat.mk'_eq_divInt, Rat.divInt_eq_div, Int.cast_natCast, Int.cast_natCast,
          cast_div_gcd _ _ hN hD, hval]
    | true =>
      simp only [if_true, neg_one_mul]
      rw [Rat.mk'_eq_divInt, Rat.divInt_eq_div, Int.cast_neg, Int.cast_natCast,
          Int.cast_natCast, neg_div, cast_div_gcd _ _ hN hD, hval]

/-- `ratLtB` decides the strict order on ℚ. -/
theorem ratLtB_iff (a b : ℚ) : ratLtB a b = true ↔ a < b := by
  rw [ratLtB, decide_eq_true_iff, Rat.lt_def]

/-! ## Row access/update lemmas -/

theorem find?_rowSet_map_self {c : String} {v : Value} {r : Row}
    (hc : r.any (fun p => p.1 = c) = true) :
    (r.map (fun p => if p.1 = c then (c, v) else p)).find?
      (fun p => p.1 = c) = some (c, v) := by
  induction r with
  | nil => simp at hc
  | cons p t ih =>
    by_cases h : p.1 = c
    · rw [List.map_cons, if_pos h, List.find?_cons_of_pos _ (by simp)]
    · rw [List.map_cons, if_neg h, List.find?_cons_of_neg _ (by simp [h])]
      apply ih
      rw [List.any_cons] at hc
      simpa [h] using hc

theorem find?_rowSet_map_other {c c' : String} {v : Value} (r : Row)
    (hne : c' ≠ c) :
    (r.map (fun p => if p.1 = c then (c, v) else p)).find?
      (fun p => p.1 = c') = r.find? (fun p => p.1 = c') := by
  induction r with
  | nil => rfl
  | cons p t ih =>
    by_cases h : p.1 = c
    · have h2 : ¬ (p.1 = c') := by
        rw [h]
        exact fun hh => hne hh.symm
      rw [List.map_cons, if_pos h,
          List.find?_cons_of_neg _ (by simpa using fun hh => hne hh.symm),
          List.find?_cons_of_neg _ (by simpa using h2), ih]
    · rw [List.map_cons, if_neg h]
      by_cases h' : p.1 = c'
      · rw [List.find?_cons_of_pos _ (by simpa using h'),
            List.find?_cons_of_pos _ (by simpa using h')]
      · rw [List.find?_cons_of_neg _ (by simpa using h'),
            List.find?_cons_of_neg _ (by simpa using h'), ih]

theorem rowGet_rowSet_self (r : Row) (c : String) (v : Value) :
    rowGet (rowSet r c v) c = v := by
  rw [rowSet]
  by_cases h : r.any (fun p => p.1 = c) = true
  · rw [if_pos h, rowGet, find?_rowSet_map_self h]
    rfl
  · rw [if_neg h, rowGet]
    have hnone : r.find? (fun p => decide (p.1 = c)) = none := by
      rw [List.find?_eq_none]
      intro p hp
      simp only [List.any_eq_true, not_exists, not_and] at h
      simpa using h p hp
    rw [List.find?_append, hnone]
    simp

theorem rowGet_rowSet_other (r : Row) {c c' : String} (v : Value)
    (hne : c' ≠ c) : rowGet (rowSet r c v) c' = rowGet r c' := by
  rw [rowSet]
  by_cases h : r.any (fun p => p.1 = c) = true
  · rw [if_pos h, rowGet, rowGet, find?_rowSet_map_other r hne]
  · rw [if_neg h, rowGet, rowGet, List.find?_append]
    cases hf : r.find? (fun p => decide (p.1 = c')) with
    | some p => simp
    | none => simp [Ne.symm hne]

theorem keys_cons {l : Row} {n : String} {ns : List String}
    (h : l.map Prod.fst = n :: ns) :
    ∃ v t, l = (n, v) :: t ∧ List.map Prod.fst t = ns := by
  cases l with
  | nil => simp at h
  | cons p t =>
    simp only [List.map_cons, List.cons.injEq] at h
    exact ⟨p.2, t, by rw [← h.1], h.2⟩

/-! ## Traversal lemmas -/

theorem mapO_mem {α β : Type} {f : α → Option β} {l : List α} {l' : List β}
    (h : mapO f l = some l') : ∀ b ∈ l', ∃ a ∈ l, f a = some b := by
  induction l generalizing l' with
  | nil =>
    rw [mapO] at h
    cases h
    simp
  | cons a t ih =>
    rw [mapO] at h
    cases hfa : f a with
    | none => rw [hfa] at h; cases h
    | some b0 =>
      rw [hfa] at h
      cases hmt : mapO f t with
      | none => rw [hmt] at h; cases h
      | some bs =>
        rw [hmt] at h
        cases h
        intro b hb
        rcases List.mem_cons.mp hb with hb | hb
        · exact ⟨a, by simp, hb ▸ hfa⟩
        · rcases ih hmt b hb with ⟨x, hx, hfx⟩
          exact ⟨x, by simp [hx], hfx⟩

theorem assignColO_origin {df : DataFrame} {c : String} {f : Row → Option Value}
    {out : DataFrame} (h : assignColO df c f = some out) :
    out.cols = colsSet df.cols c ∧
      ∀ r' ∈ out.rows, ∃ r ∈ df.rows, ∃ v, f r = some v ∧ r' = rowSet r c v := by
  rw [assignColO] at h
  cases hm : mapO (fun r => (f r).map (fun v => rowSet r c v)) df.rows with
  | none => rw [hm] at h; cases h
  | some rows' =>
    rw [hm] at h
    cases h
    refine ⟨rfl, ?_⟩
    intro r' hr'
    rcases mapO_mem hm r' hr' with ⟨r, hr, hfr⟩
    rcases Option.map_eq_some'.mp hfr with ⟨v, hv, hrv⟩
    exact ⟨r, hr, v, hv, hrv.symm⟩

/-! ## Deduplication lemmas -/

theorem dropDuplicatesFrom_sublist (seen : List Row) (l : List Row) :
    (dropDuplicatesFrom seen l).Sublist l := by
  induction l generalizing seen with
  | nil => simp [dropDuplicatesFrom]
  | cons a rs ih =>
    rw [dropDuplicatesFrom]
    split
    · exact (ih _).trans (List.sublist_cons_self a rs)
    · exact List.Sublist.cons₂ a (ih _)

theorem mem_dropDuplicatesFrom (seen : List Row) (l : List Row) (r : Row) :
    r ∈ dropDuplicatesFrom seen l ↔ r ∈ l ∧ r ∉ seen := by
  induction l generalizing seen with
  | nil => simp [dropDuplicatesFrom]
  | cons a rs ih =>
    rw [dropDuplicatesFrom]
    by_cases h : a ∈ seen
    · rw [if_pos h, ih]
      by_cases hr : r = a
      · subst hr
        simp [h]
      · simp [hr, List.mem_cons]
    · rw [if_neg h]
      by_cases hr : r = a
      · subst hr
        simp [h]
      · simp [List.mem_cons, hr, ih]

theorem nodup_dropDuplicatesFrom (seen : List Row) (l : List Row) :
    (dropDuplicatesFrom seen l).Nodup := by
  induction l generalizing seen with
  | nil => simp [dropDuplicatesFrom]
  | cons a rs ih =>
    rw [dropDuplicatesFrom]
    split
    · exact ih _
    · rw [List.nodup_cons]
      refine ⟨?_, ih _⟩
      rw [mem_dropDuplicatesFrom]
      simp

theorem count_dropDuplicatesFrom (seen : List Row) (l : List Row) (r : Row) :
    (dropDuplicatesFrom seen l).count r =
      if r ∈ l ∧ r ∉ seen then 1 else 0 := by
  by_cases h : r ∈ l ∧ r ∉ seen
  · rw [if_pos h]
    exact List.count_eq_one_of_mem (nodup_dropDuplicatesFrom seen l)
      ((mem_dropDuplicatesFrom seen l r).mpr h)
  · rw [if_neg h]
    exact List.count_eq_zero.mpr (fun hm => h ((mem_dropDuplicatesFrom seen l r).mp hm))

theorem duplicated_count_add_length (seen : List Row) (l : List Row) :
    (duplicatedFrom seen l).count true + (dropDuplicatesFrom seen l).length
      = l.length := by
  induction l generalizing seen with
  | nil => simp [duplicatedFrom, dropDuplicatesFrom]
  | cons a rs ih =>
    rw [duplicatedFrom, dropDuplicatesFrom]
    have := ih (a :: seen)
    by_cases h : a ∈ seen
    · rw [if_pos h]
      have hd : decide (a ∈ seen) = true := by simpa using h
      rw [hd, List.count_cons_self, List.length_cons]
      omega
    · rw [if_neg h]
      have hd : decide (a ∈ seen) = false := by simpa using h
      rw [hd, List.count_cons_of_ne (by decide), List.length_cons,
          List.length_cons]
      omega

theorem dropDuplicates_perm_dedup (l : List Row) :
    (dropDuplicatesFrom [] l).Perm l.dedup := by
  rw [List.perm_ext_iff_of_nodup (nodup_dropDuplicatesFrom _ _) l.nodup_dedup]
  intro r
  rw [mem_dropDuplicatesFrom, List.mem_dedup]
  simp

theorem sum_count_dropDuplicates (l : List Row) :
    ((dropDuplicatesFrom [] l).map (fun r => l.count r)).sum = l.length := by
  have hp := (dropDuplicates_perm_dedup l).map (fun r => l.count r)
  rw [hp.sum_eq]
  exact List.sum_map_count_dedup_eq_length l

theorem sum_sub_one_add_length {l' l : List Row}
    (h : ∀ r ∈ l', 1 ≤ l.count r) :
    (l'.map (fun r => l.count r - 1)).sum + l'.length
      = (l'.map (fun r => l.count r)).sum := by
  induction l' with
  | nil => simp
  | cons a t ih =>
    simp only [List.map_cons, List.sum_cons, List.length_cons]
    have ha : 1 ≤ l.count a := h a (by simp)
    have ht := ih (fun r hr => h r (by simp [hr]))
    omega

theorem dropDuplicatesFrom_of_nodup (seen : List Row) (l : List Row)
    (hl : l.Nodup) (hs : ∀ r ∈ l, r ∉ seen) :
    dropDuplicatesFrom seen l = l := by
  induction l generalizing seen with
  | nil => rfl
  | cons a t ih =>
    rw [dropDuplicatesFrom, if_neg (hs a (by simp))]
    congr 1
    refine ih _ (List.nodup_cons.mp hl).2 ?_
    intro r hr
    rw [List.mem_cons]
    push_neg
    exact ⟨fun he => (List.nodup_cons.mp hl).1 (he ▸ hr), hs r (by simp [hr])⟩

theorem ratLtB_eq_false_iff (a b : ℚ) : ratLtB a b = false ↔ ¬ a < b := by
  rw [← Bool.not_eq_true, ratLtB_iff]

theorem isNa_iff (v : Value) : isNa v = true ↔ v = Value.nan := by
  cases v <;> simp [isNa]

theorem duplicatedFrom_of_nodup (seen : List Row) (l : List Row)
    (hl : l.Nodup) (hs : ∀ r ∈ l, r ∉ seen) :
    (duplicatedFrom seen l).count true = 0 := by
  induction l generalizing seen with
  | nil => rfl
  | cons a t ih =>
    rw [duplicatedFrom]
    have := ih (a :: seen) (List.nodup_cons.mp hl).2 (fun r hr => by
      rw [List.mem_cons]
      push_neg
      exact ⟨fun he => (List.nodup_cons.mp hl).1 (he ▸ hr), hs r (by simp [hr])⟩)
    have hd : decide (a ∈ seen) = false := by simpa using hs a (by simp)
    rw [hd, List.count_cons_of_ne (by decide)]
    omega

/-! ## Translator lemmas -/

theorem traducir_direccion_viento_rows (df : DataFrame) :
    (traducir_direccion_viento df).rows = df.rows.map (fun r =>
      rowSet (rowSet r "wind_direction_completo"
          (mapDictS wind_direction_completo (rowGet r "wind_direction")))
        "wind_direction_grados"
        (mapDict wind_direction_grados (rowGet r "wind_direction"))) := by
  show (df.rows.map _).map _ = _
  rw [List.map_map]
  apply List.map_congr_left
  intro r _
  simp only [Function.comp_apply]
  rw [rowGet_rowSet_other r _ (by decide)]

theorem traducir_condicion_cielo_rows (df : DataFrame) :
    (traducir_condicion_cielo df).rows = df.rows.map (fun r =>
      rowSet r "sky_condition_ingles"
        (mapDictS sky_condition_ingles (rowGet r "sky_condition"))) := rfl

theorem lookup_eq_none_of_keys {β : Type} (l : List (String × β)) (a : String)
    (h : ∀ p ∈ l, p.1 ≠ a) : l.lookup a = none := by
  induction l with
  | nil => rfl
  | cons p t ih =>
    cases p with
    | mk k v =>
      have hk : (a == k) = false :=
        beq_eq_false_iff_ne.mpr (fun he => (h (k, v) (by simp)) he.symm)
      simp only [List.lookup, hk]
      exact ih (fun q hq => h q (by simp [hq]))

/-! ## Heap lemmas

Reads, writes and allocations interact as expected: a write is visible
only through the written reference, and an allocation leaves every
previously allocated reference untouched. -/

theorem Heap.get_set_ne (h : Heap) {r r' : Ref} (d : DataFrame)
    (hne : r ≠ r') : (h.set r' d).get r = h.get r := by
  unfold Heap.get Heap.set
  rw [List.getD_eq_getElem?_getD, List.getD_eq_getElem?_getD,
      List.getElem?_set_ne (Ne.symm hne)]

theorem Heap.get_set_self (h : Heap) {r : Ref} (d : DataFrame)
    (hr : r < h.size) : (h.set r d).get r = d := by
  unfold Heap.get Heap.set
  rw [List.getD_eq_getElem?_getD, List.getElem?_set_self hr]
  rfl

theorem Heap.get_alloc_lt (h : Heap) (d : DataFrame) {r : Ref}
    (hr : r < h.size) : (h.alloc d).1.get r = h.get r := by
  unfold Heap.get Heap.alloc
  rw [List.getD_eq_getElem?_getD, List.getD_eq_getElem?_getD,
      List.getElem?_append_left hr]

theorem Heap.get_alloc_self (h : Heap) (d : DataFrame) :
    (h.alloc d).1.get (h.alloc d).2 = d := by
  unfold Heap.get Heap.alloc
  rw [List.getD_eq_getElem?_getD, List.getElem?_concat_length]
  rfl

theorem Heap.size_set (h : Heap) (r : Ref) (d : DataFrame) :
    (h.set r d).size = h.size := by
  unfold Heap.size Heap.set
  simp

theorem Heap.size_alloc (h : Heap) (d : DataFrame) :
    (h.alloc d).1.size = h.size + 1 := by
  unfold Heap.size Heap.alloc
  simp

/-! ## Object-level stage specifications

Each stage grows the heap, returns a fresh reference, leaves every
pre-existing object unchanged, and its fresh object carries the value
the value-level stage function computes.  None of this is definitional:
the writes in the `*_obj` bodies genuinely mutate the heap, and the
proofs rest on the written reference being the fresh allocation. -/

theorem traducir_direccion_viento_obj_spec (h : Heap) (df : Ref) :
    h.size ≤ (traducir_direccion_viento_obj h df).1.size ∧
    (traducir_direccion_viento_obj h df).2 = h.size ∧
    (∀ r, r < h.size →
      (traducir_direccion_viento_obj h df).1.get r = h.get r) ∧
    (traducir_direccion_viento_obj h df).2
        < (traducir_direccion_viento_obj h df).1.size ∧
    (traducir_direccion_viento_obj h df).1.get
        (traducir_direccion_viento_obj h df).2
      = traducir_direccion_viento (h.get df) := by
  simp only [traducir_direccion_viento_obj]
  have hn : (h.alloc (h.get df)).2 < (h.alloc (h.get df)).1.size := by
    rw [Heap.size_alloc]
    exact Nat.lt_succ_self _
  refine ⟨?_, rfl, ?_, ?_, ?_⟩
  · rw [Heap.size_set, Heap.size_set, Heap.size_alloc]
    exact Nat.le_succ _
  · intro r hr
    have hne : r ≠ (h.alloc (h.get df)).2 := Nat.ne_of_lt hr
    rw [Heap.get_set_ne _ _ hne, Heap.get_set_ne _ _ hne,
        Heap.get_alloc_lt _ _ hr]
  · rw [Heap.size_set, Heap.size_set, Heap.size_alloc]
    exact Nat.lt_succ_self _
  · rw [Heap.get_set_self _ _ (by rw [Heap.size_set]; exact hn),
        Heap.get_set_self _ _ hn, Heap.get_alloc_self]
    rfl

theorem traducir_condicion_cielo_obj_spec (h : Heap) (df : Ref) :
    h.size ≤ (traducir_condicion_cielo_obj h df).1.size ∧
    (traducir_condicion_cielo_obj h df).2 = h.size ∧
    (∀ r, r < h.size →
      (traducir_condicion_cielo_obj h df).1.get r = h.get r) ∧
    (traducir_condicion_cielo_obj h df).2
        < (traducir_condicion_cielo_obj h df).1.size ∧
    (traducir_condicion_cielo_obj h df).1.get
        (traducir_condicion_cielo_obj h df).2
      = traducir_condicion_cielo (h.get df) := by
  simp only [traducir_condicion_cielo_obj]
  have hn : (h.alloc (h.get df)).2 < (h.alloc (h.get df)).1.size := by
    rw [Heap.size_alloc]
    exact Nat.lt_succ_self _
  refine ⟨?_, rfl, ?_, ?_, ?_⟩
  · rw [Heap.size_set, Heap.size_alloc]
    exact Nat.le_succ _
  · intro r hr
    have hne : r ≠ (h.alloc (h.get df)).2 := Nat.ne_of_lt hr
    rw [Heap.get_set_ne _ _ hne, Heap.get_alloc_lt _ _ hr]
  · rw [Heap.size_set, Heap.size_alloc]
    exact Nat.lt_succ_self _
  · rw [Heap.get_set_self _ _ hn, Heap.get_alloc_self]
    rfl

theorem eliminar_columnas_innecesarias_obj_spec (h : Heap) (df : Ref)
    (cs : List String) :
    h.size ≤ (eliminar_columnas_innecesarias_obj h df cs).1.size ∧
    (eliminar_columnas_innecesarias_obj h df cs).2 = h.size ∧
    (∀ r, r < h.size →
      (eliminar_columnas_innecesarias_obj h df cs).1.get r = h.get r) ∧
    (eliminar_columnas_innecesarias_obj h df cs).2
        < (eliminar_columnas_innecesarias_obj h df cs).1.size ∧
    (eliminar_columnas_innecesarias_obj h df cs).1.get
        (eliminar_columnas_innecesarias_obj h df cs).2
      = eliminar_columnas_innecesarias (h.get df) cs := by
  simp only [eliminar_columnas_innecesarias_obj]
  have hn : (h.alloc (h.get df)).2 < (h.alloc (h.get df)).1.size := by
    rw [Heap.size_alloc]
    exact Nat.lt_succ_self _
  refine ⟨?_, rfl, ?_, ?_, ?_⟩
  · rw [Heap.size_set, Heap.size_alloc]
    exact Nat.le_succ _
  · intro r hr
    have hne : r ≠ (h.alloc (h.get df)).2 := Nat.ne_of_lt hr
    rw [Heap.get_set_ne _ _ hne, Heap.get_alloc_lt _ _ hr]
  · rw [Heap.size_set, Heap.size_alloc]
    exact Nat.lt_succ_self _
  · rw [Heap.get_set_self _ _ hn, Heap.get_alloc_self]
    rfl

theorem normalizar_nombres_columnas_obj_spec (h : Heap) (df : Ref)
    (rn : List (String × String)) :
    h.size ≤ (normalizar_nombres_columnas_obj h df rn).1.size ∧
    (normalizar_nombres_columnas_obj h df rn).2 = h.size ∧
    (∀ r, r < h.size →
      (normalizar_nombres_columnas_obj h df rn).1.get r = h.get r) ∧
    (normalizar_nombres_columnas_obj h df rn).2
        < (normalizar_nombres_columnas_obj h df rn).1.size ∧
    (normalizar_nombres_columnas_obj h df rn).1.get
        (normalizar_nombres_columnas_obj h df rn).2
      = normalizar_nombres_columnas (h.get df) rn := by
  simp only [normalizar_nombres_columnas_obj]
  have hn : (h.alloc (h.get df)).2 < (h.alloc (h.get df)).1.size := by
    rw [Heap.size_alloc]
    exact Nat.lt_succ_self _
  refine ⟨?_, rfl, ?_, ?_, ?_⟩
  · rw [Heap.size_set, Heap.size_set, Heap.size_alloc]
    exact Nat.le_succ _
  · intro r hr
    have hne : r ≠ (h.alloc (h.get df)).2 := Nat.ne_of_lt hr
    rw [Heap.get_set_ne _ _ hne, Heap.get_set_ne _ _ hne,
        Heap.get_alloc_lt _ _ hr]
  · rw [Heap.size_set, Heap.size_set, Heap.size_alloc]
    exact Nat.lt_succ_self _
  · rw [Heap.get_set_self _ _ (by rw [Heap.size_set]; exact hn),
        Heap.get_set_self _ _ hn, Heap.get_alloc_self]
    rfl

theorem marcar_estado_viento_obj_spec (h : Heap) (df : Ref) :
    h.size ≤ (marcar_estado_viento_obj h df).1.size ∧
    (marcar_estado_viento_obj h df).2 = h.size ∧
    (∀ r, r < h.size →
      (marcar_estado_viento_obj h df).1.get r = h.get r) ∧
    (marcar_estado_viento_obj h df).2
        < (marcar_estado_viento_obj h df).1.size ∧
    (marcar_estado_viento_obj h df).1.get (marcar_estado_viento_obj h df).2
      = marcar_estado_viento (h.get df) := by
  simp only [marcar_estado_viento_obj]
  have hn : (h.alloc (h.get df)).2 < (h.alloc (h.get df)).1.size := by
    rw [Heap.size_alloc]
    exact Nat.lt_succ_self _
  refine ⟨?_, rfl, ?_, ?_, ?_⟩
  · rw [Heap.size_set, Heap.size_alloc]
    exact Nat.le_succ _
  · intro r hr
    have hne : r ≠ (h.alloc (h.get df)).2 := Nat.ne_of_lt hr
    rw [Heap.get_set_ne _ _ hne, Heap.get_alloc_lt _ _ hr]
  · rw [Heap.size_set, Heap.size_alloc]
    exact Nat.lt_succ_self _
  · rw [Heap.get_set_self _ _ hn, Heap.get_alloc_self]
    rfl

theorem detectar_outliers_obj_spec (h : Heap) (df : Ref) :
    h.size ≤ (detectar_outliers_obj h df).1.size ∧
    (detectar_outliers_obj h df).2 = h.size ∧
    (∀ r, r < h.size →
      (detectar_outliers_obj h df).1.get r = h.get r) ∧
    (detectar_outliers_obj h df).2 < (detectar_outliers_obj h df).1.size ∧
    (detectar_outliers_obj h df).1.get (detectar_outliers_obj h df).2
      = detectar_outliers (h.get df) := by
  simp only [detectar_outliers_obj]
  refine ⟨?_, rfl, ?_, ?_, Heap.get_alloc_self _ _⟩
  · rw [Heap.size_alloc]
    exact Nat.le_succ _
  · intro r hr
    exact Heap.get_alloc_lt _ _ hr
  · rw [Heap.size_alloc]
    exact Nat.lt_succ_self _

theorem verificar_duplicados_obj_spec (h : Heap) (df : Ref) :
    h.size ≤ (verificar_duplicados_obj h df).1.size ∧
    h.size ≤ (verificar_duplicados_obj h df).2.1 ∧
    (∀ r, r < h.size →
      (verificar_duplicados_obj h df).1.get r = h.get r) ∧
    (verificar_duplicados_obj h df).2.1
        < (verificar_duplicados_obj h df).1.size ∧
    ((verificar_duplicados_obj h df).1.get (verificar_duplicados_obj h df).2.1,
        (verificar_duplicados_obj h df).2.2)
      = verificar_duplicados (h.get df) := by
  simp only [verificar_duplicados_obj]
  have hv : (h.alloc (h.get df)).1.get (h.alloc (h.get df)).2 = h.get df :=
    Heap.get_alloc_self _ _
  refine ⟨?_, ?_, ?_, ?_, ?_⟩
  · rw [Heap.size_alloc, Heap.size_alloc]
    exact le_trans (Nat.le_succ _) (Nat.le_succ _)
  · show h.size ≤ (h.alloc (h.get df)).1.size
    rw [Heap.size_alloc]
    exact Nat.le_succ _
  · intro r hr
    rw [Heap.get_alloc_lt _ _ (by rw [Heap.size_alloc]; exact Nat.lt_succ_of_lt hr),
        Heap.get_alloc_lt _ _ hr]
  · rw [Heap.size_alloc, Heap.size_alloc]
    show (h.alloc (h.get df)).1.size < h.size + 1 + 1
    rw [Heap.size_alloc]
    exact Nat.lt_succ_self _
  · rw [Heap.get_alloc_self, hv]
    rfl

theorem unificar_fecha_hora_obj_spec (h : Heap) (df : Ref) :
    h.size ≤ (unificar_fecha_hora_obj h df).1.size ∧
    (∀ r, r < h.size → (unificar_fecha_hora_obj h df).1.get r = h.get r) ∧
    (∀ ref, (unificar_fecha_hora_obj h df).2 = some ref →
      ref = h.size ∧ ref < (unificar_fecha_hora_obj h df).1.size) ∧
    ((unificar_fecha_hora_obj h df).2.map ((unificar_fecha_hora_obj h df).1.get)
      = unificar_fecha_hora (h.get df)) := by
  simp only [unificar_fecha_hora_obj, unificar_fecha_hora, copyDF]
  have hn : (h.alloc (h.get df)).2 < (h.alloc (h.get df)).1.size := by
    rw [Heap.size_alloc]
    exact Nat.lt_succ_self _
  rw [Heap.get_alloc_self]
  cases hm : assignColO (h.get df) "datetime"
      (fun r =>
        (parseDateTimeStr
            (strOfValue (rowGet r "date") ++ " " ++
              strOfValue (rowGet r "hour"))).map
          (fun t => Value.dt t.1 t.2.1 t.2.2.1 t.2.2.2)) with
  | none =>
    simp only [hm]
    refine ⟨?_, ?_, by simp, rfl⟩
    · rw [Heap.size_alloc]
      exact Nat.le_succ _
    · intro r hr
      exact Heap.get_alloc_lt _ _ hr
  | some v =>
    simp only [hm]
    refine ⟨?_, ?_, ?_, ?_⟩
    · rw [Heap.size_set, Heap.size_alloc]
      exact Nat.le_succ _
    · intro r hr
      have hne : r ≠ (h.alloc (h.get df)).2 := Nat.ne_of_lt hr
      rw [Heap.get_set_ne _ _ hne, Heap.get_alloc_lt _ _ hr]
    · intro ref href
      obtain rfl : (h.alloc (h.get df)).2 = ref := by simpa using href
      refine ⟨rfl, ?_⟩
      rw [Heap.size_set, Heap.size_alloc]
      exact Nat.lt_succ_self _
    · simp only [Option.map_some']
      rw [Heap.get_set_self _ _ hn]

theorem convertir_tipos_datos_obj_spec (h : Heap) (df : Ref) :
    h.size ≤ (convertir_tipos_datos_obj h df).1.size ∧
    (∀ r, r < h.size → (convertir_tipos_datos_obj h df).1.get r = h.get r) ∧
    (∀ ref, (convertir_tipos_datos_obj h df).2 = some ref →
      ref = h.size ∧ ref < (convertir_tipos_datos_obj h df).1.size) ∧
    ((convertir_tipos_datos_obj h df).2.map
        ((convertir_tipos_datos_obj h df).1.get)
      = convertir_tipos_datos (h.get df)) := by
  simp only [convertir_tipos_datos_obj, convertir_tipos_datos, copyDF, bind]
  have hn : (h.alloc (h.get df)).2 < (h.alloc (h.get df)).1.size := by
    rw [Heap.size_alloc]
    exact Nat.lt_succ_self _
  have hgrow : h.size ≤ (h.alloc (h.get df)).1.size := by
    rw [Heap.size_alloc]
    exact Nat.le_succ _
  have hframe0 : ∀ r, r < h.size →
      (h.alloc (h.get df)).1.get r = h.get r :=
    fun r hr => Heap.get_alloc_lt _ _ hr
  rw [Heap.get_alloc_self]
  cases hm1 : assignColO (h.get df) "date"
      (fun r => toDatetimeCell (rowGet r "date")) with
  | none =>
    simp only [hm1, Option.none_bind]
    exact ⟨hgrow, hframe0, by simp, rfl⟩
  | some v1 =>
  simp only [hm1, Option.some_bind]
  rw [Heap.get_set_self _ _ hn]
  cases hm2 : assignColO v1 "hour"
      (fun r => formatHourCell (rowGet r "hour")) with
  | none =>
    simp only [hm2, Option.none_bind]
    refine ⟨?_, ?_, by simp, rfl⟩
    · rw [Heap.size_set]
      exact hgrow
    · intro r hr
      have hne : r ≠ (h.alloc (h.get df)).2 := Nat.ne_of_lt hr
      rw [Heap.get_set_ne _ _ hne]
      exact hframe0 r hr
  | some v2 =>
  simp only [hm2, Option.some_bind]
  rw [Heap.get_set_self _ _ (by rw [Heap.size_set]; exact hn)]
  cases hm3 : assignColO v2 "temperature"
      (fun r => astypeFloat (rowGet r "temperature")) with
  | none =>
    simp only [hm3, Option.none_bind]
    refine ⟨?_, ?_, by simp, rfl⟩
    · rw [Heap.size_set, Heap.size_set]
      exact hgrow
    · intro r hr
      have hne : r ≠ (h.alloc (h.get df)).2 := Nat.ne_of_lt hr
      rw [Heap.get_set_ne _ _ hne, Heap.get_set_ne _ _ hne]
      exact hframe0 r hr
  | some v3 =>
  simp only [hm3, Option.some_bind]
  rw [Heap.get_set_self _ _ (by rw [Heap.size_set, Heap.size_set]; exact hn)]
  cases hm4 : assignColO v3 "humidity"
      (fun r => astypeFloat (rowGet r "humidity")) with
  | none =>
    simp only [hm4, Option.none_bind]
    refine ⟨?_, ?_, by simp, rfl⟩
    · rw [Heap.size_set, Heap.size_set, Heap.size_set]
      exact hgrow
    · intro r hr
      have hne : r ≠ (h.alloc (h.get df)).2 := Nat.ne_of_lt hr
      rw [Heap.get_set_ne _ _ hne, Heap.get_set_ne _ _ hne,
          Heap.get_set_ne _ _ hne]
      exact hframe0 r hr
  | some v4 =>
  simp only [hm4, Option.some_bind]
  rw [Heap.get_set_self _ _
    (by rw [Heap.size_set, Heap.size_set, Heap.size_set]; exact hn)]
  cases hm5 : assignColO v4 "wind_speed"
      (fun r => astypeFloat (rowGet r "wind_speed")) with
  | none =>
    simp only [hm5, Option.none_bind]
    refine ⟨?_, ?_, by simp, rfl⟩
    · rw [Heap.size_set, Heap.size_set, Heap.size_set, Heap.size_set]
      exact hgrow
    · intro r hr
      have hne : r ≠ (h.alloc (h.get df)).2 := Nat.ne_of_lt hr
      rw [Heap.get_set_ne _ _ hne, Heap.get_set_ne _ _ hne,
          Heap.get_set_ne _ _ hne, Heap.get_set_ne _ _ hne]
      exact hframe0 r hr
  | some v5 =>
  simp only [hm5, Option.some_bind]
  rw [Heap.get_set_self _ _
    (by rw [Heap.size_set, Heap.size_set, Heap.size_set, Heap.size_set];
        exact hn)]
  by_cases hcond : v5.cols.contains "wind_direction_grados" = true
  · simp only [hcond, if_true]
    cases hm6 : assignColO v5 "wind_direction_grados"
        (fun r => astypeFloat (rowGet r "wind_direction_grados")) with
    | none =>
      simp only [hm6]
      refine ⟨?_, ?_, by simp, rfl⟩
      · rw [Heap.size_set, Heap.size_set, Heap.size_set, Heap.size_set,
            Heap.size_set]
        exact hgrow
      · intro r hr
        have hne : r ≠ (h.alloc (h.get df)).2 := Nat.ne_of_lt hr
        rw [Heap.get_set_ne _ _ hne, Heap.get_set_ne _ _ hne,
            Heap.get_set_ne _ _ hne, Heap.get_set_ne _ _ hne,
            Heap.get_set_ne _ _ hne]
        exact hframe0 r hr
    | some v6 =>
      simp only [hm6]
      refine ⟨?_, ?_, ?_, ?_⟩
      · rw [Heap.size_set, Heap.size_set, Heap.size_set, Heap.size_set,
            Heap.size_set, Heap.size_set]
        exact hgrow
      · intro r hr
        have hne : r ≠ (h.alloc (h.get df)).2 := Nat.ne_of_lt hr
        rw [Heap.get_set_ne _ _ hne, Heap.get_set_ne _ _ hne,
            Heap.get_set_ne _ _ hne, Heap.get_set_ne _ _ hne,
            Heap.get_set_ne _ _ hne, Heap.get_set_ne _ _ hne]
        exact hframe0 r hr
      · intro ref href
        obtain rfl : (h.alloc (h.get df)).2 = ref := by simpa using href
        refine ⟨rfl, ?_⟩
        rw [Heap.size_set, Heap.size_set, Heap.size_set, Heap.size_set,
            Heap.size_set, Heap.size_set, Heap.size_alloc]
        exact Nat.lt_succ_self _
      · simp only [Option.map_some']
        rw [Heap.get_set_self _ _
          (by rw [Heap.size_set, Heap.size_set, Heap.size_set,
                Heap.size_set, Heap.size_set];
              exact hn)]
  · simp only [hcond, Bool.false_eq_true, if_false]
    refine ⟨?_, ?_, ?_, ?_⟩
    · rw [Heap.size_set, Heap.size_set, Heap.size_set, Heap.size_set,
          Heap.size_set]
      exact hgrow
    · intro r hr
      have hne : r ≠ (h.alloc (h.get df)).2 := Nat.ne_of_lt hr
      rw [Heap.get_set_ne _ _ hne, Heap.get_set_ne _ _ hne,
          Heap.get_set_ne _ _ hne, Heap.get_set_ne _ _ hne,
          Heap.get_set_ne _ _ hne]
      exact hframe0 r hr
    · intro ref href
      obtain rfl : (h.alloc (h.get df)).2 = ref := by simpa using href
      refine ⟨rfl, ?_⟩
      rw [Heap.size_set, Heap.size_set, Heap.size_set, Heap.size_set,
          Heap.size_set, Heap.size_alloc]
      exact Nat.lt_succ_self _
    · simp only [Option.map_some']
      rw [Heap.get_set_self _ _
        (by rw [Heap.size_set, Heap.size_set, Heap.size_set, Heap.size_set];
            exact hn)]

theorem proceso_completo_limpieza_obj_spec (h : Heap) (df : Ref) :
    h.size ≤ (proceso_completo_limpieza_obj h df).1.size ∧
    (∀ r, r < h.size →
      (proceso_completo_limpieza_obj h df).1.get r = h.get r) ∧
    (∀ ref, (proceso_completo_limpieza_obj h df).2 = some ref →
      h.size ≤ ref ∧ ref < (proceso_completo_limpieza_obj h df).1.size) ∧
    ((proceso_completo_limpieza_obj h df).2.map
        ((proceso_completo_limpieza_obj h df).1.get)
      = proceso_completo_limpieza (h.get df)) := by
  simp only [proceso_completo_limpieza_obj, proceso_completo_limpieza, bind,
    Option.pure_def]
  generalize hs1 : traducir_direccion_viento_obj h df = s1
  have S1 := traducir_direccion_viento_obj_spec h df
  rw [hs1] at S1
  obtain ⟨g1, -, f1, -, l1⟩ := S1
  generalize hs2 : traducir_condicion_cielo_obj s1.1 s1.2 = s2
  have S2 := traducir_condicion_cielo_obj_spec s1.1 s1.2
  rw [hs2] at S2
  obtain ⟨g2, -, f2, -, l2⟩ := S2
  generalize hs3 : eliminar_columnas_innecesarias_obj s2.1 s2.2
      ["wind_direction", "sky_condition", "timestamp"] = s3
  have S3 := eliminar_columnas_innecesarias_obj_spec s2.1 s2.2
    ["wind_direction", "sky_condition", "timestamp"]
  rw [hs3] at S3
  obtain ⟨g3, -, f3, -, l3⟩ := S3
  have hg3 : h.size ≤ s3.1.size := (g1.trans g2).trans g3
  have hf3 : ∀ r, r < h.size → s3.1.get r = h.get r := fun r hr =>
    (f3 r (lt_of_lt_of_le hr (g1.trans g2))).trans
      ((f2 r (lt_of_lt_of_le hr g1)).trans (f1 r hr))
  have hv3 : eliminar_columnas_innecesarias
      (traducir_condicion_cielo (traducir_direccion_viento (h.get df)))
      ["wind_direction", "sky_condition", "timestamp"] = s3.1.get s3.2 := by
    rw [l3, l2, l1]
  rw [hv3]
  generalize hc4 : convertir_tipos_datos_obj s3.1 s3.2 = c4
  have S4 := convertir_tipos_datos_obj_spec s3.1 s3.2
  rw [hc4] at S4
  obtain ⟨h4, o4⟩ := c4
  obtain ⟨g4, f4, -, l4⟩ := S4
  cases o4 with
  | none =>
    simp only [Option.map_none'] at l4
    rw [← l4]
    simp only [Option.none_bind, Option.map_none']
    refine ⟨hg3.trans g4, ?_, ?_, trivial⟩
    · intro r hr
      exact (f4 r (lt_of_lt_of_le hr hg3)).trans (hf3 r hr)
    · intro ref href
      exact Option.noConfusion href
  | some df4 =>
    have hg4 : h.size ≤ h4.size := hg3.trans g4
    have hf4 : ∀ r, r < h.size → h4.get r = h.get r := fun r hr =>
      (f4 r (lt_of_lt_of_le hr hg3)).trans (hf3 r hr)
    have hv4 : convertir_tipos_datos (s3.1.get s3.2) = some (h4.get df4) := by
      rw [← l4]
      rfl
    rw [hv4]
    simp only [Option.some_bind]
    generalize hc5 : unificar_fecha_hora_obj h4 df4 = c5
    have S5 := unificar_fecha_hora_obj_spec h4 df4
    rw [hc5] at S5
    obtain ⟨h5, o5⟩ := c5
    obtain ⟨g5, f5, -, l5⟩ := S5
    cases o5 with
    | none =>
      simp only [Option.map_none'] at l5
      rw [← l5]
      simp only [Option.none_bind, Option.map_none']
      refine ⟨hg4.trans g5, ?_, ?_, trivial⟩
      · intro r hr
        exact (f5 r (lt_of_lt_of_le hr hg4)).trans (hf4 r hr)
      · intro ref href
        exact Option.noConfusion href
    | some df5 =>
      have hg5 : h.size ≤ h5.size := hg4.trans g5
      have hf5 : ∀ r, r < h.size → h5.get r = h.get r := fun r hr =>
        (f5 r (lt_of_lt_of_le hr hg4)).trans (hf4 r hr)
      have hv5 : unificar_fecha_hora (h4.get df4) = some (h5.get df5) := by
        rw [← l5]
        rfl
      rw [hv5]
      simp only [Option.some_bind]
      generalize hs6 : eliminar_columnas_innecesarias_obj h5 df5
          ["date", "hour"] = s6
      have S6 := eliminar_columnas_innecesarias_obj_spec h5 df5
        ["date", "hour"]
      rw [hs6] at S6
      obtain ⟨g6, n6, f6, v6, l6⟩ := S6
      generalize hh7 :
        s6.1.set s6.2 (popInsertFirst (s6.1.get s6.2) "datetime") = h7
      have g7 : s6.1.size ≤ h7.size := by
        rw [← hh7]
        exact le_of_eq (Heap.size_set _ _ _).symm
      have f7 : ∀ r, r < h5.size → h7.get r = s6.1.get r := by
        intro r hr
        rw [← hh7]
        exact Heap.get_set_ne _ _ (by rw [n6]; exact Nat.ne_of_lt hr)
      have l7 : h7.get s6.2 = popInsertFirst (s6.1.get s6.2) "datetime" := by
        rw [← hh7]
        exact Heap.get_set_self _ _ v6
      generalize hs8 : normalizar_nombres_columnas_obj h7 s6.2
          proceso_renombres = s8
      have S8 := normalizar_nombres_columnas_obj_spec h7 s6.2 proceso_renombres
      rw [hs8] at S8
      obtain ⟨g8, -, f8, -, l8⟩ := S8
      generalize hs9 : marcar_estado_viento_obj s8.1 s8.2 = s9
      have S9 := marcar_estado_viento_obj_spec s8.1 s8.2
      rw [hs9] at S9
      obtain ⟨g9, -, f9, -, l9⟩ := S9
      generalize hs10 : verificar_duplicados_obj s9.1 s9.2 = s10
      have S10 := verificar_duplicados_obj_spec s9.1 s9.2
      rw [hs10] at S10
      obtain ⟨g10, n10, f10, v10, l10⟩ := S10
      have hg6 : h.size ≤ s6.1.size := hg5.trans g6
      have hg7 : h.size ≤ h7.size := hg6.trans g7
      have hg8 : h.size ≤ s8.1.size := hg7.trans g8
      have hg9 : h.size ≤ s9.1.size := hg8.trans g9
      have hv9 : marcar_estado_viento
          (normalizar_nombres_columnas
            (popInsertFirst
              (eliminar_columnas_innecesarias (h5.get df5) ["date", "hour"])
              "datetime")
            proceso_renombres) = s9.1.get s9.2 := by
        rw [l9, l8, l7, l6]
      refine ⟨hg9.trans g10, ?_, ?_, ?_⟩
      · intro r hr
        refine (f10 r (lt_of_lt_of_le hr hg9)).trans ?_
        refine (f9 r (lt_of_lt_of_le hr hg8)).trans ?_
        refine (f8 r (lt_of_lt_of_le hr hg7)).trans ?_
        refine (f7 r (lt_of_lt_of_le hr hg5)).trans ?_
        refine (f6 r (lt_of_lt_of_le hr hg5)).trans ?_
        exact hf5 r hr
      · intro ref href
        have hre : s10.2.1 = ref := by simpa using href
        subst hre
        exact ⟨hg9.trans n10, v10⟩
      · rw [hv9]
        simp only [Option.map_some']
        exact congrArg some (congrArg Prod.fst l10)

/-! ## Claim theorems -/

/-- C5: `verificar_duplicados` keeps, of every row of the input, exactly
one copy (in input order, so the surviving copy is the first
occurrence), and reports as its count the sum over the surviving rows of
(multiplicity − 1); rows that are not full-column duplicates (count 1)
are all preserved. -/
theorem c5_verificar_duplicados_spec (df : DataFrame) :
    (verificar_duplicados df).1.cols = df.cols ∧
    (verificar_duplicados df).1.rows.Sublist df.rows ∧
    (∀ r ∈ df.rows, (verificar_duplicados df).1.rows.count r = 1) ∧
    (verificar_duplicados df).2 =
      ((verificar_duplicados df).1.rows.map
        (fun r => df.rows.count r - 1)).sum := by
  refine ⟨rfl, dropDuplicatesFrom_sublist _ _, ?_, ?_⟩
  · intro r hr
    show (dropDuplicatesFrom [] df.rows).count r = 1
    rw [count_dropDuplicatesFrom, if_pos ⟨hr, by simp⟩]
  · have hge : ∀ r ∈ dropDuplicatesFrom [] df.rows, 1 ≤ df.rows.count r := by
      intro r hr
      have hm := ((mem_dropDuplicatesFrom [] df.rows r).mp hr).1
      exact List.count_pos_iff.mpr hm
    have h1 := duplicated_count_add_length [] df.rows
    have h2 := sum_count_dropDuplicates df.rows
    have h3 := sum_sub_one_add_length hge
    show (duplicatedFrom [] df.rows).count true =
      ((dropDuplicatesFrom [] df.rows).map (fun r => df.rows.count r - 1)).sum
    omega

/-- Witness for C5 on a table where `rowA` occurs three times: one copy
survives and the count is 2. -/
theorem c5_witness :
    (verificar_duplicados dupTable).1.rows.count rowA = 1 ∧
    (verificar_duplicados dupTable).2 =
      ((verificar_duplicados dupTable).1.rows.map
        (fun r => dupTable.rows.count r - 1)).sum :=
  ⟨(c5_verificar_duplicados_spec dupTable).2.2.1 rowA (by decide),
   (c5_verificar_duplicados_spec dupTable).2.2.2⟩

/-- C8: deduplication is idempotent — re-running `verificar_duplicados`
on its own table output returns that table with count 0, and on any
input already free of full-row duplicates the table is returned
unchanged with count 0. -/
theorem c8_verificar_duplicados_idempotent (df : DataFrame) :
    verificar_duplicados ((verificar_duplicados df).1) =
      ((verificar_duplicados df).1, 0) ∧
    (∀ d : DataFrame, d.rows.Nodup → verificar_duplicados d = (d, 0)) := by
  have hkey : ∀ d : DataFrame, d.rows.Nodup → verificar_duplicados d = (d, 0) := by
    intro d hd
    have h1 : dropDuplicatesFrom [] d.rows = d.rows :=
      dropDuplicatesFrom_of_nodup [] d.rows hd (by simp)
    have h2 : (duplicatedFrom [] d.rows).count true = 0 :=
      duplicatedFrom_of_nodup [] d.rows hd (by simp)
    show (⟨d.cols, dropDuplicatesFrom [] d.rows⟩,
      (duplicatedFrom [] d.rows).count true) = (d, 0)
    rw [h1, h2]
  exact ⟨hkey _ (nodup_dropDuplicatesFrom [] df.rows), hkey⟩

/-- Witness for C8 on a duplicate-free two-row table. -/
theorem c8_witness :
    verificar_duplicados ⟨["temperature", "humidity"], [rowA, rowB]⟩ =
      (⟨["temperature", "humidity"], [rowA, rowB]⟩, 0) :=
  (c8_verificar_duplicados_idempotent dupTable).2 _ (by decide)

/-- C7: `detectar_outliers` returns exactly the subset of rows whose
numeric readings satisfy temperature < -10 or temperature > 50 or
humidity < 0 or humidity > 100 or wind_speed < 0. -/
theorem c7_detectar_outliers_spec (df : DataFrame) :
    (detectar_outliers df).cols = df.cols ∧
    (detectar_outliers df).rows.Sublist df.rows ∧
    ∀ r ∈ df.rows, ∀ t h w : ℚ,
      rowGet r "temperature" = Value.q t →
      rowGet r "humidity" = Value.q h →
      rowGet r "wind_speed" = Value.q w →
      (r ∈ (detectar_outliers df).rows ↔
        (t < -10 ∨ t > 50 ∨ h < 0 ∨ h > 100 ∨ w < 0)) := by
  refine ⟨rfl, List.filter_sublist _, ?_⟩
  intro r hr t h w ht hh hw
  show r ∈ df.rows.filter _ ↔ _
  rw [List.mem_filter]
  simp only [ht, hh, hw, valueLt, valueGt, hr, true_and, Bool.or_eq_true,
    ratLtB_iff]
  tauto

/-- Witness for C7: the temperature -15 row is flagged. -/
theorem c7_witness : outlierRow ∈ (detectar_outliers outlierTable).rows :=
  ((c7_detectar_outliers_spec outlierTable).2.2 outlierRow
      (List.mem_cons_self _ _) (-15) 50 8 rfl rfl rfl).mpr (by norm_num)

/-- C10: a NaN reading satisfies none of the outlier comparisons, so a
row whose three readings are each either missing or in range is never
returned by `detectar_outliers`. -/
theorem c10_detectar_outliers_missing (df : DataFrame) :
    (∀ c : ℚ, valueLt Value.nan c = false ∧ valueGt Value.nan c = false) ∧
    ∀ r ∈ df.rows,
      (rowGet r "temperature" = Value.nan ∨
        ∃ t : ℚ, rowGet r "temperature" = Value.q t ∧ -10 ≤ t ∧ t ≤ 50) →
      (rowGet r "humidity" = Value.nan ∨
        ∃ h : ℚ, rowGet r "humidity" = Value.q h ∧ 0 ≤ h ∧ h ≤ 100) →
      (rowGet r "wind_speed" = Value.nan ∨
        ∃ w : ℚ, rowGet r "wind_speed" = Value.q w ∧ 0 ≤ w) →
      r ∉ (detectar_outliers df).rows := by
  refine ⟨fun c => ⟨rfl, rfl⟩, ?_⟩
  intro r _ h1 h2 h3 hmem
  have hp := (List.mem_filter.mp hmem).2
  have e1 : valueLt (rowGet r "temperature") (-10) = false ∧
      valueGt (rowGet r "temperature") 50 = false := by
    rcases h1 with h | ⟨t, hts, ht1, ht2⟩
    · rw [h]; exact ⟨rfl, rfl⟩
    · rw [hts]
      exact ⟨(ratLtB_eq_false_iff _ _).mpr (by linarith),
        (ratLtB_eq_false_iff _ _).mpr (by linarith)⟩
  have e2 : valueLt (rowGet r "humidity") 0 = false ∧
      valueGt (rowGet r "humidity") 100 = false := by
    rcases h2 with h | ⟨x, hxs, hx1, hx2⟩
    · rw [h]; exact ⟨rfl, rfl⟩
    · rw [hxs]
      exact ⟨(ratLtB_eq_false_iff _ _).mpr (by linarith),
        (ratLtB_eq_false_iff _ _).mpr (by linarith)⟩
  have e3 : valueLt (rowGet r "wind_speed") 0 = false := by
    rcases h3 with h | ⟨x, hxs, hx1⟩
    · rw [h]; rfl
    · rw [hxs]
      exact (ratLtB_eq_false_iff _ _).mpr (by linarith)
  rw [e1.1, e1.2, e2.1, e2.2, e3] at hp
  simp at hp

/-- Witness for C10: the all-missing row is not flagged. -/
theorem c10_witness : missingRow ∉ (detectar_outliers outlierTable).rows :=
  (c10_detectar_outliers_missing outlierTable).2 missingRow (by simp [outlierTable])
    (Or.inl rfl) (Or.inl rfl) (Or.inl rfl)

/-- C4: on the eight directional raw codes the wind translator is
injective into English names with degree values in [0, 360) (N=0,
NE=45, E=90, SE=135, S=180, SO=225, O=270, NO=315); on "C" it assigns
the name "calm" and a null (NaN) degree value. -/
theorem c4_traducir_direccion_viento_spec :
    (∀ c1 ∈ windCodes8, ∀ c2 ∈ windCodes8,
      wind_direction_completo.lookup c1 = wind_direction_completo.lookup c2 →
        c1 = c2) ∧
    (wind_direction_grados.lookup "N" = some (.q 0) ∧
     wind_direction_grados.lookup "NE" = some (.q 45) ∧
     wind_direction_grados.lookup "E" = some (.q 90) ∧
     wind_direction_grados.lookup "SE" = some (.q 135) ∧
     wind_direction_grados.lookup "S" = some (.q 180) ∧
     wind_direction_grados.lookup "SO" = some (.q 225) ∧
     wind_direction_grados.lookup "O" = some (.q 270) ∧
     wind_direction_grados.lookup "NO" = some (.q 315)) ∧
    (∀ df : DataFrame, ∀ r ∈ df.rows, ∀ c : String,
      rowGet r "wind_direction" = Value.s c →
      (c ∈ windCodes8 →
        ∃ r' ∈ (traducir_direccion_viento df).rows, ∃ nm : String, ∃ d : ℚ,
          rowGet r' "wind_direction_completo" = Value.s nm ∧
          rowGet r' "wind_direction_grados" = Value.q d ∧
          0 ≤ d ∧ d < 360) ∧
      (c = "C" →
        ∃ r' ∈ (traducir_direccion_viento df).rows,
          rowGet r' "wind_direction_completo" = Value.s "calm" ∧
          rowGet r' "wind_direction_grados" = Value.nan)) := by
  refine ⟨by decide, by decide, ?_⟩
  intro df r hr c hc
  have hmem : (rowSet (rowSet r "wind_direction_completo"
        (mapDictS wind_direction_completo (rowGet r "wind_direction")))
      "wind_direction_grados"
      (mapDict wind_direction_grados (rowGet r "wind_direction")))
      ∈ (traducir_direccion_viento df).rows := by
    rw [traducir_direccion_viento_rows]
    exact List.mem_map_of_mem _ hr
  have hA : rowGet (rowSet (rowSet r "wind_direction_completo"
        (mapDictS wind_direction_completo (rowGet r "wind_direction")))
      "wind_direction_grados"
      (mapDict wind_direction_grados (rowGet r "wind_direction")))
      "wind_direction_completo"
      = mapDictS wind_direction_completo (Value.s c) := by
    rw [rowGet_rowSet_other _ _ (by decide), rowGet_rowSet_self, hc]
  have hB : rowGet (rowSet (rowSet r "wind_direction_completo"
        (mapDictS wind_direction_completo (rowGet r "wind_direction")))
      "wind_direction_grados"
      (mapDict wind_direction_grados (rowGet r "wind_direction")))
      "wind_direction_grados"
      = mapDict wind_direction_grados (Value.s c) := by
    rw [rowGet_rowSet_self, hc]
  constructor
  · intro h8
    simp only [windCodes8, List.mem_cons, List.not_mem_nil, or_false] at h8
    rcases h8 with rfl | rfl | rfl | rfl | rfl | rfl | rfl | rfl
    · exact ⟨_, hmem, "north", 0, hA, hB, by norm_num, by norm_num⟩
    · exact ⟨_, hmem, "northeast", 45, hA, hB, by norm_num, by norm_num⟩
    · exact ⟨_, hmem, "east", 90, hA, hB, by norm_num, by norm_num⟩
    · exact ⟨_, hmem, "southeast", 135, hA, hB, by norm_num, by norm_num⟩
    · exact ⟨_, hmem, "south", 180, hA, hB, by norm_num, by norm_num⟩
    · exact ⟨_, hmem, "southwest", 225, hA, hB, by norm_num, by norm_num⟩
    · exact ⟨_, hmem, "west", 270, hA, hB, by norm_num, by norm_num⟩
    · exact ⟨_, hmem, "northwest", 315, hA, hB, by norm_num, by norm_num⟩
  · intro hcC
    subst hcC
    exact ⟨_, hmem, hA, hB⟩

/-- Witness for C4: the example row with code "N" gets a directional
name and an in-range degree value. -/
theorem c4_witness :
    ∃ r' ∈ (traducir_direccion_viento exampleTable).rows, ∃ nm : String,
      ∃ d : ℚ, rowGet r' "wind_direction_completo" = Value.s nm ∧
        rowGet r' "wind_direction_grados" = Value.q d ∧ 0 ≤ d ∧ d < 360 :=
  ((c4_traducir_direccion_viento_spec.2.2 exampleTable exampleRow
      (List.mem_cons_self _ _) "N" rfl).1 (by decide))

/-- C6: a wind code outside the nine raw codes, or a sky phrase outside
the translation table, raises no error: the translators are total and
the enrichment cells are NaN. -/
theorem c6_translators_unknown_spec :
    (∀ df : DataFrame, ∀ r ∈ df.rows, ∀ c : String,
      rowGet r "wind_direction" = Value.s c → c ∉ windCodes9 →
      ∃ r' ∈ (traducir_direccion_viento df).rows,
        rowGet r' "wind_direction_completo" = Value.nan ∧
        rowGet r' "wind_direction_grados" = Value.nan) ∧
    (∀ df : DataFrame, ∀ r ∈ df.rows, ∀ p : String,
      rowGet r "sky_condition" = Value.s p →
      p ∉ sky_condition_ingles.map Prod.fst →
      ∃ r' ∈ (traducir_condicion_cielo df).rows,
        rowGet r' "sky_condition_ingles" = Value.nan) := by
  constructor
  · intro df r hr c hc hnot
    have hkeys1 : ∀ p ∈ wind_direction_completo, p.1 ≠ c := by
      intro p hp he
      apply hnot
      rw [← he]
      revert hp
      rcases p with ⟨k, v⟩
      simp only [wind_direction_completo, List.mem_cons, List.not_mem_nil,
        or_false, windCodes9, windCodes8, Prod.mk.injEq]
      rintro (⟨rfl, -⟩ | ⟨rfl, -⟩ | ⟨rfl, -⟩ | ⟨rfl, -⟩ | ⟨rfl, -⟩ |
        ⟨rfl, -⟩ | ⟨rfl, -⟩ | ⟨rfl, -⟩ | ⟨rfl, -⟩) <;> simp
    have hkeys2 : ∀ p ∈ wind_direction_grados, p.1 ≠ c := by
      intro p hp he
      apply hnot
      rw [← he]
      revert hp
      rcases p with ⟨k, v⟩
      simp only [wind_direction_grados, List.mem_cons, List.not_mem_nil,
        or_false, windCodes9, windCodes8, Prod.mk.injEq]
      rintro (⟨rfl, -⟩ | ⟨rfl, -⟩ | ⟨rfl, -⟩ | ⟨rfl, -⟩ | ⟨rfl, -⟩ |
        ⟨rfl, -⟩ | ⟨rfl, -⟩ | ⟨rfl, -⟩ | ⟨rfl, -⟩) <;> simp
    refine ⟨_, by rw [traducir_direccion_viento_rows]; exact List.mem_map_of_mem _ hr,
      ?_, ?_⟩
    · rw [rowGet_rowSet_other _ _ (by decide), rowGet_rowSet_self, hc]
      show ((wind_direction_completo.lookup c).map Value.s).getD Value.nan = _
      rw [lookup_eq_none_of_keys _ _ hkeys1]
      rfl
    · rw [rowGet_rowSet_self, hc]
      show (wind_direction_grados.lookup c).getD Value.nan = _
      rw [lookup_eq_none_of_keys _ _ hkeys2]
      rfl
  · intro df r hr p hp hnot
    have hkeys : ∀ q ∈ sky_condition_ingles, q.1 ≠ p := by
      intro q hq he
      apply hnot
      rw [← he]
      exact List.mem_map_of_mem Prod.fst hq
    refine ⟨_, by rw [traducir_condicion_cielo_rows]; exact List.mem_map_of_mem _ hr, ?_⟩
    rw [rowGet_rowSet_self, hp]
    show ((sky_condition_ingles.lookup p).map Value.s).getD Value.nan = _
    rw [lookup_eq_none_of_keys _ _ hkeys]
    rfl

/-- Witness for C6: the unknown code "X" yields NaN in both wind
enrichment columns. -/
theorem c6_witness :
    ∃ r' ∈ (traducir_direccion_viento unknownCodeTable).rows,
      rowGet r' "wind_direction_completo" = Value.nan ∧
      rowGet r' "wind_direction_grados" = Value.nan :=
  c6_translators_unknown_spec.1 unknownCodeTable _ (List.mem_cons_self _ _)
    "X" rfl (by decide)

/-- C2 (evaluation at the claim's inputs): the spec's example row
(date "18/02/2025") cleans to exactly the claimed output row; but on the
same row with date "05/02/2025" (5 February 2025 in the collector's
dd/mm/yyyy format) the type normalizer — `pd.to_datetime` with
`dayfirst=False` — takes the first component as the month, producing
datetime 2025-05-02T08:00 (May 2) where the claim requires
2025-02-05T08:00; the two readings differ. -/
theorem c2_dayfirst_evaluation :
    proceso_completo_limpieza exampleTable = some exampleOutput ∧
    proceso_completo_limpieza ambiguousDateTable = some ambiguousDateOutput ∧
    Value.dt 2025 5 2 8 ≠ Value.dt 2025 2 5 8 ∧
    rowGet ((ambiguousDateOutput.rows.headI)) "datetime" = Value.dt 2025 5 2 8 := by
  have h1 : (22.5 : ℚ) = mkDecRat false 22 5 1 := by rw [mkDecRat_eq]; norm_num
  refine ⟨?_, ?_, by decide, by decide⟩
  · rw [show exampleOutput = ⟨canonSchema,
      [[("datetime", .dt 2025 2 18 8), ("temperature", .q (mkDecRat false 22 5 1)),
        ("humidity", .q 65), ("wind_speed", .q 10),
        ("wind_direction", .s "north"), ("wind_direction_degrees", .q 0),
        ("sky_condition", .s "clear"), ("wind_status", .s "with wind")]]⟩
      from by rw [exampleOutput, ← h1]]
    decide
  · rw [show ambiguousDateOutput = ⟨canonSchema,
      [[("datetime", .dt 2025 5 2 8), ("temperature", .q (mkDecRat false 22 5 1)),
        ("humidity", .q 65), ("wind_speed", .q 10),
        ("wind_direction", .s "north"), ("wind_direction_degrees", .q 0),
        ("sky_condition", .s "clear"), ("wind_status", .s "with wind")]]⟩
      from by rw [ambiguousDateOutput, ← h1]]
    decide

/-- C1: on any input table with the pre-cleaning schema, whenever the
pipeline returns a table its columns are exactly
datetime, temperature, humidity, wind_speed, wind_direction,
wind_direction_degrees, sky_condition, wind_status, in that order, with
datetime first and no date, hour or timestamp column. -/
theorem c1_proceso_schema (df out : DataFrame)
    (hcols : df.cols = rawSchema)
    (hout : proceso_completo_limpieza df = some out) :
    out.cols = canonSchema ∧ out.cols.head? = some "datetime" ∧
      "date" ∉ out.cols ∧ "hour" ∉ out.cols ∧ "timestamp" ∉ out.cols := by
  simp only [proceso_completo_limpieza, bind, Option.bind_eq_some] at hout
  obtain ⟨d4, hd4, d5, hd5, hfin⟩ := hout
  have h3 : (eliminar_columnas_innecesarias
      (traducir_condicion_cielo (traducir_direccion_viento df))
      ["wind_direction", "sky_condition", "timestamp"]).cols
      = ["date", "hour", "temperature", "humidity", "wind_speed",
         "wind_direction_completo", "wind_direction_grados",
         "sky_condition_ingles"] := by
    simp only [eliminar_columnas_innecesarias, traducir_condicion_cielo,
      traducir_direccion_viento, assignCol, copyDF, hcols]
    decide
  simp only [convertir_tipos_datos, copyDF, bind, Option.bind_eq_some] at hd4
  obtain ⟨a, ha, b, hb, c, hc, d, hd, e, he, hif⟩ := hd4
  have ca := (assignColO_origin ha).1
  rw [h3] at ca
  have cb := (assignColO_origin hb).1
  rw [ca] at cb
  have cc := (assignColO_origin hc).1
  rw [cb] at cc
  have cd := (assignColO_origin hd).1
  rw [cc] at cd
  have ce := (assignColO_origin he).1
  rw [cd] at ce
  have hcond : e.cols.contains "wind_direction_grados" = true := by
    rw [ce]; decide
  rw [hcond] at hif
  simp only [if_true] at hif
  have cd4 := (assignColO_origin hif).1
  rw [ce] at cd4
  simp only [unificar_fecha_hora, copyDF] at hd5
  have cd5 := (assignColO_origin hd5).1
  rw [cd4] at cd5
  simp only [Option.pure_def, Option.some.injEq] at hfin
  subst hfin
  simp only [verificar_duplicados, marcar_estado_viento, assignCol,
    normalizar_nombres_columnas, popInsertFirst,
    eliminar_columnas_innecesarias, copyDF]
  rw [cd5]
  refine ⟨by decide, by decide, by decide, by decide, by decide⟩

/-- Witness for C1: the spec's example table cleans successfully and
its output carries the canonical schema. -/
theorem c1_witness :
    exampleOutput.cols = canonSchema ∧
    exampleOutput.cols.head? = some "datetime" ∧
    "date" ∉ exampleOutput.cols ∧ "hour" ∉ exampleOutput.cols ∧
    "timestamp" ∉ exampleOutput.cols :=
  c1_proceso_schema exampleTable exampleOutput rfl (by
    have h1 : (22.5 : ℚ) = mkDecRat false 22 5 1 := by rw [mkDecRat_eq]; norm_num
    rw [show exampleOutput = ⟨canonSchema,
      [[("datetime", .dt 2025 2 18 8), ("temperature", .q (mkDecRat false 22 5 1)),
        ("humidity", .q 65), ("wind_speed", .q 10),
        ("wind_direction", .s "north"), ("wind_direction_degrees", .q 0),
        ("sky_condition", .s "clear"), ("wind_status", .s "with wind")]]⟩
      from by rw [exampleOutput, ← h1]]
    decide)

/-- C9: no stage writes through any pre-existing reference.  For every
heap and argument reference, each stage (and the orchestrator) leaves
the object behind every previously allocated reference — in particular
the caller's input table — unchanged, returns a freshly allocated
object (its reference is not a pre-existing one), and that fresh
object's value is the value-level stage function of the argument
object's value. -/
theorem c9_no_mutation (h : Heap) (df : Ref) (cs : List String)
    (rn : List (String × String)) :
    ((∀ r, r < h.size → (traducir_direccion_viento_obj h df).1.get r = h.get r) ∧
      h.size ≤ (traducir_direccion_viento_obj h df).2 ∧
      (traducir_direccion_viento_obj h df).1.get
          (traducir_direccion_viento_obj h df).2
        = traducir_direccion_viento (h.get df)) ∧
    ((∀ r, r < h.size → (traducir_condicion_cielo_obj h df).1.get r = h.get r) ∧
      h.size ≤ (traducir_condicion_cielo_obj h df).2 ∧
      (traducir_condicion_cielo_obj h df).1.get
          (traducir_condicion_cielo_obj h df).2
        = traducir_condicion_cielo (h.get df)) ∧
    ((∀ r, r < h.size →
        (eliminar_columnas_innecesarias_obj h df cs).1.get r = h.get r) ∧
      h.size ≤ (eliminar_columnas_innecesarias_obj h df cs).2 ∧
      (eliminar_columnas_innecesarias_obj h df cs).1.get
          (eliminar_columnas_innecesarias_obj h df cs).2
        = eliminar_columnas_innecesarias (h.get df) cs) ∧
    ((∀ r, r < h.size → (convertir_tipos_datos_obj h df).1.get r = h.get r) ∧
      (∀ ref, (convertir_tipos_datos_obj h df).2 = some ref → h.size ≤ ref) ∧
      ((convertir_tipos_datos_obj h df).2.map
          ((convertir_tipos_datos_obj h df).1.get)
        = convertir_tipos_datos (h.get df))) ∧
    ((∀ r, r < h.size → (unificar_fecha_hora_obj h df).1.get r = h.get r) ∧
      (∀ ref, (unificar_fecha_hora_obj h df).2 = some ref → h.size ≤ ref) ∧
      ((unificar_fecha_hora_obj h df).2.map
          ((unificar_fecha_hora_obj h df).1.get)
        = unificar_fecha_hora (h.get df))) ∧
    ((∀ r, r < h.size →
        (normalizar_nombres_columnas_obj h df rn).1.get r = h.get r) ∧
      h.size ≤ (normalizar_nombres_columnas_obj h df rn).2 ∧
      (normalizar_nombres_columnas_obj h df rn).1.get
          (normalizar_nombres_columnas_obj h df rn).2
        = normalizar_nombres_columnas (h.get df) rn) ∧
    ((∀ r, r < h.size → (marcar_estado_viento_obj h df).1.get r = h.get r) ∧
      h.size ≤ (marcar_estado_viento_obj h df).2 ∧
      (marcar_estado_viento_obj h df).1.get (marcar_estado_viento_obj h df).2
        = marcar_estado_viento (h.get df)) ∧
    ((∀ r, r < h.size → (detectar_outliers_obj h df).1.get r = h.get r) ∧
      h.size ≤ (detectar_outliers_obj h df).2 ∧
      (detectar_outliers_obj h df).1.get (detectar_outliers_obj h df).2
        = detectar_outliers (h.get df)) ∧
    ((∀ r, r < h.size → (verificar_duplicados_obj h df).1.get r = h.get r) ∧
      h.size ≤ (verificar_duplicados_obj h df).2.1 ∧
      ((verificar_duplicados_obj h df).1.get (verificar_duplicados_obj h df).2.1,
          (verificar_duplicados_obj h df).2.2)
        = verificar_duplicados (h.get df)) ∧
    ((∀ r, r < h.size →
        (proceso_completo_limpieza_obj h df).1.get r = h.get r) ∧
      (∀ ref, (proceso_completo_limpieza_obj h df).2 = some ref →
        h.size ≤ ref) ∧
      ((proceso_completo_limpieza_obj h df).2.map
          ((proceso_completo_limpieza_obj h df).1.get)
        = proceso_completo_limpieza (h.get df))) :=
  ⟨⟨(traducir_direccion_viento_obj_spec h df).2.2.1,
    le_of_eq (traducir_direccion_viento_obj_spec h df).2.1.symm,
    (traducir_direccion_viento_obj_spec h df).2.2.2.2⟩,
   ⟨(traducir_condicion_cielo_obj_spec h df).2.2.1,
    le_of_eq (traducir_condicion_cielo_obj_spec h df).2.1.symm,
    (traducir_condicion_cielo_obj_spec h df).2.2.2.2⟩,
   ⟨(eliminar_columnas_innecesarias_obj_spec h df cs).2.2.1,
    le_of_eq (eliminar_columnas_innecesarias_obj_spec h df cs).2.1.symm,
    (eliminar_columnas_innecesarias_obj_spec h df cs).2.2.2.2⟩,
   ⟨(convertir_tipos_datos_obj_spec h df).2.1,
    fun ref hr => le_of_eq
      (((convertir_tipos_datos_obj_spec h df).2.2.1 ref hr).1).symm,
    (convertir_tipos_datos_obj_spec h df).2.2.2⟩,
   ⟨(unificar_fecha_hora_obj_spec h df).2.1,
    fun ref hr => le_of_eq
      (((unificar_fecha_hora_obj_spec h df).2.2.1 ref hr).1).symm,
    (unificar_fecha_hora_obj_spec h df).2.2.2⟩,
   ⟨(normalizar_nombres_columnas_obj_spec h df rn).2.2.1,
    le_of_eq (normalizar_nombres_columnas_obj_spec h df rn).2.1.symm,
    (normalizar_nombres_columnas_obj_spec h df rn).2.2.2.2⟩,
   ⟨(marcar_estado_viento_obj_spec h df).2.2.1,
    le_of_eq (marcar_estado_viento_obj_spec h df).2.1.symm,
    (marcar_estado_viento_obj_spec h df).2.2.2.2⟩,
   ⟨(detectar_outliers_obj_spec h df).2.2.1,
    le_of_eq (detectar_outliers_obj_spec h df).2.1.symm,
    (detectar_outliers_obj_spec h df).2.2.2.2⟩,
   ⟨(verificar_duplicados_obj_spec h df).2.2.1,
    (verificar_duplicados_obj_spec h df).2.1,
    (verificar_duplicados_obj_spec h df).2.2.2.2⟩,
   ⟨(proceso_completo_limpieza_obj_spec h df).2.1,
    fun ref hr =>
      ((proceso_completo_limpieza_obj_spec h df).2.2.1 ref hr).1,
    (proceso_completo_limpieza_obj_spec h df).2.2.2⟩⟩

/-- Witness for C9 on a one-object heap: the wind translator leaves the
stored table unchanged and its fresh result is the value-level
translation. -/
theorem c9_witness :
    (traducir_direccion_viento_obj exampleHeap 0).1.get 0
        = exampleHeap.get 0 ∧
      (traducir_direccion_viento_obj exampleHeap 0).1.get
          (traducir_direccion_viento_obj exampleHeap 0).2
        = traducir_direccion_viento (exampleHeap.get 0) :=
  ⟨(c9_no_mutation exampleHeap 0 ["timestamp"] proceso_renombres).1.1 0
      (by decide),
   (c9_no_mutation exampleHeap 0 ["timestamp"] proceso_renombres).1.2.2⟩


/-- C3 counterexample: on the single-row table whose raw wind code is
"X" (not "C"), the pipeline yields null wind_direction_degrees and
wind_status "calm", so "degrees is null iff the raw code was C" fails as
stated. -/
theorem c3_counterexample :
    proceso_completo_limpieza unknownCodeTable = some unknownCodeOutput ∧
    rowGet (unknownCodeOutput.rows.headI) "wind_direction_degrees" = Value.nan ∧
    rowGet (unknownCodeOutput.rows.headI) "wind_status" = Value.s "calm" ∧
    rowGet (unknownCodeTable.rows.headI) "wind_direction" = Value.s "X" ∧
    Value.s "X" ≠ Value.s "C" := by
  have h1 : (22.5 : ℚ) = mkDecRat false 22 5 1 := by rw [mkDecRat_eq]; norm_num
  refine ⟨?_, by decide, by decide, by decide, by decide⟩
  rw [show unknownCodeOutput = ⟨canonSchema,
    [[("datetime", .dt 2025 2 18 8), ("temperature", .q (mkDecRat false 22 5 1)),
      ("humidity", .q 65), ("wind_speed", .q 10),
      ("wind_direction", .nan), ("wind_direction_degrees", .nan),
      ("sky_condition", .s "clear"), ("wind_status", .s "calm")]]⟩
    from by rw [unknownCodeOutput, ← h1]]
  decide

/-- C3 (amended): after the full pipeline, wind_direction_degrees is
null iff wind_status is "calm", on every input; and when every raw wind
code lies in the raw code set {N,NE,E,SE,S,SO,O,NO,C}, every output row
originates from an input row whose code is "C" exactly when the output
degrees are null, exactly when the output status is "calm". -/
theorem c3_amended_degrees_calm_spec :
    (∀ df out : DataFrame, proceso_completo_limpieza df = some out →
      ∀ r' ∈ out.rows,
        (rowGet r' "wind_direction_degrees" = Value.nan ↔
          rowGet r' "wind_status" = Value.s "calm")) ∧
    (∀ df out : DataFrame, df.cols = rawSchema →
      (∀ r ∈ df.rows, r.map Prod.fst = rawSchema) →
      (∀ r ∈ df.rows, ∃ cw ∈ windCodes9,
        rowGet r "wind_direction" = Value.s cw) →
      proceso_completo_limpieza df = some out →
      ∀ r' ∈ out.rows, ∃ r0 ∈ df.rows, ∃ cw : String,
        rowGet r0 "wind_direction" = Value.s cw ∧
        (rowGet r' "wind_direction_degrees" = Value.nan ↔ cw = "C") ∧
        (rowGet r' "wind_status" = Value.s "calm" ↔ cw = "C")) := by
  constructor
  · intro df out hout r' hr'
    simp only [proceso_completo_limpieza, bind, Option.bind_eq_some,
      Option.pure_def, Option.some.injEq] at hout
    obtain ⟨d4, hd4, d5, hd5, hfin⟩ := hout
    subst hfin
    have h9 := ((mem_dropDuplicatesFrom [] _ r').mp hr').1
    obtain ⟨r8, hr8, rfl⟩ := List.mem_map.mp h9
    rw [rowGet_rowSet_self, rowGet_rowSet_other _ _ (by decide)]
    by_cases hna : isNa (rowGet r8 "wind_direction_degrees") = true
    · rw [isNa_iff] at hna
      simp [hna, isNa]
    · have hne : rowGet r8 "wind_direction_degrees" ≠ Value.nan := by
        intro h
        exact hna ((isNa_iff _).mpr h)
      have hna' : isNa (rowGet r8 "wind_direction_degrees") = false :=
        Bool.not_eq_true _ |>.mp hna
      simp [hna', hne]
  · intro df out hcols hwf hcode hout
    intro r' hr'
    simp only [proceso_completo_limpieza, bind, Option.bind_eq_some,
      Option.pure_def, Option.some.injEq] at hout
    obtain ⟨d4, hd4, d5, hd5, hfin⟩ := hout
    subst hfin
    have h3 : (eliminar_columnas_innecesarias
        (traducir_condicion_cielo (traducir_direccion_viento df))
        ["wind_direction", "sky_condition", "timestamp"]).cols
        = ["date", "hour", "temperature", "humidity", "wind_speed",
           "wind_direction_completo", "wind_direction_grados",
           "sky_condition_ingles"] := by
      simp only [eliminar_columnas_innecesarias, traducir_condicion_cielo,
        traducir_direccion_viento, assignCol, copyDF, hcols]
      decide
    simp only [convertir_tipos_datos, copyDF, bind, Option.bind_eq_some] at hd4
    obtain ⟨a, ha, b, hb, cx, hcx, d, hd, e, he, hif⟩ := hd4
    have caa := (assignColO_origin ha).1
    rw [h3] at caa
    have cbb := (assignColO_origin hb).1
    rw [caa] at cbb
    have ccc := (assignColO_origin hcx).1
    rw [cbb] at ccc
    have cdd := (assignColO_origin hd).1
    rw [ccc] at cdd
    have cee := (assignColO_origin he).1
    rw [cdd] at cee
    have hcond : e.cols.contains "wind_direction_grados" = true := by
      rw [cee]; decide
    rw [hcond] at hif
    simp only [if_true] at hif
    -- origins, kept as named equations
    have h9 := ((mem_dropDuplicatesFrom [] _ r').mp hr').1
    obtain ⟨r8, hr8, rfl⟩ := List.mem_map.mp h9
    obtain ⟨r7l, hr7l, e8⟩ := List.mem_map.mp hr8
    obtain ⟨r7, hr7, e7l⟩ := List.mem_map.mp hr7l
    obtain ⟨r6, hr6, e7⟩ := List.mem_map.mp hr7
    obtain ⟨r5, hr5, e6⟩ := List.mem_map.mp hr6
    simp only [unificar_fecha_hora, copyDF] at hd5
    obtain ⟨r4, hr4, vdt, hvdt, e5⟩ := (assignColO_origin hd5).2 _ hr5
    obtain ⟨rE, hrE, vg, hvg, e4⟩ := (assignColO_origin hif).2 _ hr4
    obtain ⟨rD, hrD, vw, hvw, eE⟩ := (assignColO_origin he).2 _ hrE
    obtain ⟨rC, hrC, vh, hvh, eD⟩ := (assignColO_origin hd).2 _ hrD
    obtain ⟨rB, hrB, vt, hvt, eC⟩ := (assignColO_origin hcx).2 _ hrC
    obtain ⟨rA, hrA, vhr, hvhr, eB⟩ := (assignColO_origin hb).2 _ hrB
    obtain ⟨r3, hr3, vd, hvd, eA⟩ := (assignColO_origin ha).2 _ hrA
    obtain ⟨r2, hr2, e3⟩ := List.mem_map.mp hr3
    simp only [copyDF] at hr2
    rw [traducir_condicion_cielo_rows] at hr2
    obtain ⟨r1, hr1, e2⟩ := List.mem_map.mp hr2
    rw [traducir_direccion_viento_rows] at hr1
    obtain ⟨r0, hr0, e1⟩ := List.mem_map.mp hr1
    -- destructure the raw row via its schema
    obtain ⟨x1, t1, rfl, hk1⟩ := keys_cons (hwf r0 hr0)
    obtain ⟨x2, t2, rfl, hk2⟩ := keys_cons hk1
    obtain ⟨x3, t3, rfl, hk3⟩ := keys_cons hk2
    obtain ⟨x4, t4, rfl, hk4⟩ := keys_cons hk3
    obtain ⟨x5, t5, rfl, hk5⟩ := keys_cons hk4
    obtain ⟨x6, t6, rfl, hk6⟩ := keys_cons hk5
    obtain ⟨x7, t7, rfl, hk7⟩ := keys_cons hk6
    obtain ⟨x8, t8, rfl, hk8⟩ := keys_cons hk7
    have ht8 : t8 = [] := by simpa using hk8
    subst ht8
    obtain ⟨cw, hcw9, hcwv⟩ := hcode _ hr0
    have hx6 : x6 = Value.s cw := by simpa [rowGet] using hcwv
    subst hx6
    -- forward computation of every intermediate row
    have E1 : r1 =
        [("date", x1), ("hour", x2), ("temperature", x3), ("humidity", x4),
         ("wind_speed", x5), ("wind_direction", Value.s cw),
         ("sky_condition", x7), ("timestamp", x8),
         ("wind_direction_completo",
           mapDictS wind_direction_completo (Value.s cw)),
         ("wind_direction_grados", mapDict wind_direction_grados (Value.s cw))]
        := by
      rw [← e1]
      simp [rowSet, rowGet]
    have E2 : r2 =
        [("date", x1), ("hour", x2), ("temperature", x3), ("humidity", x4),
         ("wind_speed", x5), ("wind_direction", Value.s cw),
         ("sky_condition", x7), ("timestamp", x8),
         ("wind_direction_completo",
           mapDictS wind_direction_completo (Value.s cw)),
         ("wind_direction_grados", mapDict wind_direction_grados (Value.s cw)),
         ("sky_condition_ingles", mapDictS sky_condition_ingles x7)] := by
      rw [← e2, E1]
      simp [rowSet, rowGet]
    have E3 : r3 =
        [("date", x1), ("hour", x2), ("temperature", x3), ("humidity", x4),
         ("wind_speed", x5),
         ("wind_direction_completo",
           mapDictS wind_direction_completo (Value.s cw)),
         ("wind_direction_grados", mapDict wind_direction_grados (Value.s cw)),
         ("sky_condition_ingles", mapDictS sky_condition_ingles x7)] := by
      rw [← e3, E2]
      simp
    have EA : rA =
        [("date", vd), ("hour", x2), ("temperature", x3), ("humidity", x4),
         ("wind_speed", x5),
         ("wind_direction_completo",
           mapDictS wind_direction_completo (Value.s cw)),
         ("wind_direction_grados", mapDict wind_direction_grados (Value.s cw)),
         ("sky_condition_ingles", mapDictS sky_condition_ingles x7)] := by
      rw [eA, E3]
      simp [rowSet]
    have EB : rB =
        [("date", vd), ("hour", vhr), ("temperature", x3), ("humidity", x4),
         ("wind_speed", x5),
         ("wind_direction_completo",
           mapDictS wind_direction_completo (Value.s cw)),
         ("wind_direction_grados", mapDict wind_direction_grados (Value.s cw)),
         ("sky_condition_ingles", mapDictS sky_condition_ingles x7)] := by
      rw [eB, EA]
      simp [rowSet]
    have EC : rC =
        [("date", vd), ("hour", vhr), ("temperature", vt), ("humidity", x4),
         ("wind_speed", x5),
         ("wind_direction_completo",
           mapDictS wind_direction_completo (Value.s cw)),
         ("wind_direction_grados", mapDict wind_direction_grados (Value.s cw)),
         ("sky_condition_ingles", mapDictS sky_condition_ingles x7)] := by
      rw [eC, EB]
      simp [rowSet]
    have ED : rD =
        [("date", vd), ("hour", vhr), ("temperature", vt), ("humidity", vh),
         ("wind_speed", x5),
         ("wind_direction_completo",
           mapDictS wind_direction_completo (Value.s cw)),
         ("wind_direction_grados", mapDict wind_direction_grados (Value.s cw)),
         ("sky_condition_ingles", mapDictS sky_condition_ingles x7)] := by
      rw [eD, EC]
      simp [rowSet]
    have EE : rE =
        [("date", vd), ("hour", vhr), ("temperature", vt), ("humidity", vh),
         ("wind_speed", vw),
         ("wind_direction_completo",
           mapDictS wind_direction_completo (Value.s cw)),
         ("wind_direction_grados", mapDict wind_direction_grados (Value.s cw)),
         ("sky_condition_ingles", mapDictS sky_condition_ingles x7)] := by
      rw [eE, ED]
      simp [rowSet]
    have E4 : r4 =
        [("date", vd), ("hour", vhr), ("temperature", vt), ("humidity", vh),
         ("wind_speed", vw),
         ("wind_direction_completo",
           mapDictS wind_direction_completo (Value.s cw)),
         ("wind_direction_grados", vg),
         ("sky_condition_ingles", mapDictS sky_condition_ingles x7)] := by
      rw [e4, EE]
      simp [rowSet]
    have E5 : r5 =
        [("date", vd), ("hour", vhr), ("temperature", vt), ("humidity", vh),
         ("wind_speed", vw),
         ("wind_direction_completo",
           mapDictS wind_direction_completo (Value.s cw)),
         ("wind_direction_grados", vg),
         ("sky_condition_ingles", mapDictS sky_condition_ingles x7),
         ("datetime", vdt)] := by
      rw [e5, E4]
      simp [rowSet]
    have E6 : r6 =
        [("temperature", vt), ("humidity", vh), ("wind_speed", vw),
         ("wind_direction_completo",
           mapDictS wind_direction_completo (Value.s cw)),
         ("wind_direction_grados", vg),
         ("sky_condition_ingles", mapDictS sky_condition_ingles x7),
         ("datetime", vdt)] := by
      rw [← e6, E5]
      simp
    have E7 : r7 =
        [("datetime", vdt), ("temperature", vt), ("humidity", vh),
         ("wind_speed", vw),
         ("wind_direction_completo",
           mapDictS wind_direction_completo (Value.s cw)),
         ("wind_direction_grados", vg),
         ("sky_condition_ingles", mapDictS sky_condition_ingles x7)] := by
      rw [← e7, E6]
      simp [rowGet]
    have kl1 : strLower "datetime" = "datetime" := by decide
    have kl2 : strLower "temperature" = "temperature" := by decide
    have kl3 : strLower "humidity" = "humidity" := by decide
    have kl4 : strLower "wind_speed" = "wind_speed" := by decide
    have kl5 : strLower "wind_direction_completo" = "wind_direction_completo" := by decide
    have kl6 : strLower "wind_direction_grados" = "wind_direction_grados" := by decide
    have kl7 : strLower "sky_condition_ingles" = "sky_condition_ingles" := by decide
    have E7l : r7l =
        [("datetime", vdt), ("temperature", vt), ("humidity", vh),
         ("wind_speed", vw),
         ("wind_direction_completo",
           mapDictS wind_direction_completo (Value.s cw)),
         ("wind_direction_grados", vg),
         ("sky_condition_ingles", mapDictS sky_condition_ingles x7)] := by
      rw [← e7l, E7]
      simp [kl1, kl2, kl3, kl4, kl5, kl6, kl7]
    have kr1 : renameKey proceso_renombres "datetime" = "datetime" := by decide
    have kr2 : renameKey proceso_renombres "temperature" = "temperature" := by decide
    have kr3 : renameKey proceso_renombres "humidity" = "humidity" := by decide
    have kr4 : renameKey proceso_renombres "wind_speed" = "wind_speed" := by decide
    have kr5 : renameKey proceso_renombres "wind_direction_completo"
        = "wind_direction" := by decide
    have kr6 : renameKey proceso_renombres "wind_direction_grados"
        = "wind_direction_degrees" := by decide
    have kr7 : renameKey proceso_renombres "sky_condition_ingles"
        = "sky_condition" := by decide
    have E8 : r8 =
        [("datetime", vdt), ("temperature", vt), ("humidity", vh),
         ("wind_speed", vw),
         ("wind_direction", mapDictS wind_direction_completo (Value.s cw)),
         ("wind_direction_degrees", vg),
         ("sky_condition", mapDictS sky_condition_ingles x7)] := by
      rw [← e8, E7l]
      simp [kr1, kr2, kr3, kr4, kr5, kr6, kr7]
    -- the degree cell of the final row is the astype image of the dict value
    have hvg' : astypeFloat (mapDict wind_direction_grados (Value.s cw))
        = some vg := by
      rw [EE] at hvg
      simpa [rowGet] using hvg
    have hvgiff : vg = Value.nan ↔ cw = "C" := by
      have hcw9' := hcw9
      simp only [windCodes9, windCodes8, List.mem_append, List.mem_cons,
        List.not_mem_nil, or_false] at hcw9'
      rcases hcw9' with ((rfl | rfl | rfl | rfl | rfl | rfl | rfl | rfl) | rfl) <;>
        simp [mapDict, wind_direction_grados, List.lookup, astypeFloat] at hvg' <;>
        simp [← hvg']
    refine ⟨_, hr0, cw, by simp [rowGet], ?_, ?_⟩
    · rw [rowGet_rowSet_other _ _ (by decide), E8]
      simpa [rowGet] using hvgiff
    · rw [rowGet_rowSet_self, E8]
      beta_reduce
      have hred : rowGet
          [("datetime", vdt), ("temperature", vt), ("humidity", vh),
           ("wind_speed", vw),
           ("wind_direction", mapDictS wind_direction_completo (Value.s cw)),
           ("wind_direction_degrees", vg),
           ("sky_condition", mapDictS sky_condition_ingles x7)]
          "wind_direction_degrees" = vg := by simp [rowGet]
      rw [hred, ← hvgiff]
      by_cases hv : isNa vg = true
      · rw [isNa_iff] at hv
        simp [hv, isNa]
      · have hne : vg ≠ Value.nan := fun h => hv ((isNa_iff vg).mpr h)
        have hv' : isNa vg = false := by
          cases hb : isNa vg
          · rfl
          · exact absurd hb hv
        simp [hv', hne]


/-- Witness for the amended C3 on a two-row table with codes "C" and
"N": the calm output row originates from a row whose code is "C", with
null degrees and status "calm". -/
theorem c3_witness :
    ∃ r0 ∈ calmAndWindTable.rows, ∃ cw : String,
      rowGet r0 "wind_direction" = Value.s cw ∧
      (rowGet calmOutputRow "wind_direction_degrees" = Value.nan ↔ cw = "C") ∧
      (rowGet calmOutputRow "wind_status" = Value.s "calm" ↔ cw = "C") :=
  c3_amended_degrees_calm_spec.2 calmAndWindTable calmAndWindOutput rfl
    (by decide) (by decide)
    (by
      have h1 : (22.5 : ℚ) = mkDecRat false 22 5 1 := by
        rw [mkDecRat_eq]; norm_num
      rw [show calmAndWindOutput = ⟨canonSchema,
        [[("datetime", .dt 2025 2 18 8),
          ("temperature", .q (mkDecRat false 22 5 1)),
          ("humidity", .q 65), ("wind_speed", .q 0),
          ("wind_direction", .s "calm"), ("wind_direction_degrees", .nan),
          ("sky_condition", .s "clear"), ("wind_status", .s "calm")],
         windyOutputRow]⟩
        from by rw [calmAndWindOutput, calmOutputRow, ← h1]]
      decide)
    calmOutputRow (List.mem_cons_self _ _)

end Clima
